import Mathlib

/-!
Verification development for the EcoSphere ML inference service
(`node_service.py` + `weather_service.py`): a shallow embedding of the
forecast pipeline (feature building, rate limiting, weather/result caching,
48-hour prediction loop, result assembly) together with theorems checking
the natural-language specification against the code.

Conventions of the embedding:
* Python `datetime` values are microseconds since the epoch 0000-03-01
  (proleptic Gregorian), naive local time; `date` objects are day indexes.
* Python floats are modelled as exact rationals (`ℚ`).
* `time.time()` is a separate second-valued clock (`ℚ`); file mtimes are
  the value of that clock at write time.
* Opaque external numerics (numpy sin/cos, the fitted scaler + regressor,
  expm1) are parameters of the model structure: the service code treats
  them as black boxes.
* Files on disk are association lists keyed by the data that the source
  feeds to `hashlib.md5` (the md5 digest itself is an external library
  detail; keying by its preimage preserves all lookup behaviour).
* Fallible operations return `Option`/`Except`; Python's `try/except`
  becomes a `match` on those results.
-/

namespace EcoSphere

/-! ## Time model -/

/-- Nateconds per second. -/
def usPerSec : Nat := 1000000

/-- Nateconds per minute (60 seconds). -/
def usPerMin : Nat := 60000000

/-- Nateconds per hour (60 minutes). -/
def usPerHour : Nat := 3600000000

/-- Nateconds per day (24 hours). -/
def usPerDay : Nat := 86400000000

/- A Python `datetime` value is a `Nat`: microseconds since 0000-03-01. -/

/-- `datetime.microsecond`. -/
def dtMicro (t : Nat) : Nat := t % usPerSec

/-- `datetime.second`. -/
def dtSecond (t : Nat) : Nat := t / usPerSec % 60

/-- `datetime.minute`. -/
def dtMinute (t : Nat) : Nat := t / usPerMin % 60

/-- `datetime.hour`. -/
def dtHour (t : Nat) : Nat := t / usPerHour % 24

/-- `datetime.date()`: the day index of a datetime. -/
def dtDate (t : Nat) : Nat := t / usPerDay

/-- `dt.replace(minute=0, second=0, microsecond=0)`: truncation to the
whole hour (the hour field is kept). -/
def truncToHour (t : Nat) : Nat := t - t % usPerHour

/-- A civil (year, month, day) triple, as produced by parsing a
`"%Y-%m-%d"` date string. -/
structure Civil where
  year : Nat
  month : Nat
  day : Nat
deriving DecidableEq

/-- Day index of a civil date (standard civil-from-days algorithm,
epoch 0000-03-01 = day 0). -/
def civilToDay (c : Civil) : Nat :=
  let y := if c.month ≤ 2 then c.year - 1 else c.year
  let era := y / 400
  let yoe := y % 400
  let mp := (c.month + 9) % 12
  let doy := (153 * mp + 2) / 5 + (c.day - 1)
  let doe := yoe * 365 + yoe / 4 - yoe / 100 + doy
  era * 146097 + doe

/-- Civil date of a day index (inverse of `civilToDay` on valid dates). -/
def civilFromDay (z : Nat) : Civil :=
  let era := z / 146097
  let doe := z % 146097
  let yoe := (doe - doe / 1460 + doe / 36524 - doe / 146096) / 365
  let y := yoe + era * 400
  let doy := doe - (365 * yoe + yoe / 4 - yoe / 100)
  let mp := (5 * doy + 2) / 153
  let d := doy - (153 * mp + 2) / 5 + 1
  let m := if mp < 10 then mp + 3 else mp - 9
  ⟨if m ≤ 2 then y + 1 else y, m, d⟩

/-- `datetime.month` of a timestamp. -/
def dtMonth (t : Nat) : Nat := (civilFromDay (dtDate t)).month

/-- Gregorian leap-year test. -/
def isLeap (y : Nat) : Bool := (y % 4 == 0 && y % 100 != 0) || y % 400 == 0

/-- Number of days in a month. -/
def daysInMonth (y m : Nat) : Nat :=
  if m = 2 then (if isLeap y then 29 else 28)
  else if m = 4 ∨ m = 6 ∨ m = 9 ∨ m = 11 then 30 else 31

/-- `datetime.weekday()` (Monday = 0) of a day index; day 0
(0000-03-01) was a Wednesday. -/
def weekdayOf (z : Nat) : Nat := (z + 2) % 7

/-- `timetuple().tm_yday`: 1-based day of the year of a day index. -/
def dayOfYearOf (z : Nat) : Nat :=
  z - civilToDay ⟨(civilFromDay z).year, 1, 1⟩ + 1

/-- The decimal digit character for `n < 10`. -/
def digitChar (n : Nat) : Char := Char.ofNat (48 + n)

/-- Two-digit zero-padded decimal rendering. -/
def pad2 (n : Nat) : String :=
  String.mk [digitChar (n / 10 % 10), digitChar (n % 10)]

/-- Four-digit zero-padded decimal rendering (years in the modelled
range are at most 9999). -/
def pad4 (n : Nat) : String :=
  String.mk [digitChar (n / 1000 % 10), digitChar (n / 100 % 10),
             digitChar (n / 10 % 10), digitChar (n % 10)]

/-- Six-digit zero-padded decimal rendering (microseconds). -/
def pad6 (n : Nat) : String :=
  String.mk [digitChar (n / 100000 % 10), digitChar (n / 10000 % 10),
             digitChar (n / 1000 % 10), digitChar (n / 100 % 10),
             digitChar (n / 10 % 10), digitChar (n % 10)]

/-- `strftime("%Y-%m-%d")` of a day index. -/
def formatDate (z : Nat) : String :=
  let c := civilFromDay z
  pad4 c.year ++ "-" ++ pad2 c.month ++ "-" ++ pad2 c.day

/-- `datetime.isoformat()`: microseconds are omitted when zero. -/
def isoFormat (t : Nat) : String :=
  formatDate (dtDate t) ++ "T" ++ pad2 (dtHour t) ++ ":" ++ pad2 (dtMinute t)
    ++ ":" ++ pad2 (dtSecond t)
    ++ (if dtMicro t = 0 then "" else "." ++ pad6 (dtMicro t))

/-- Split a character list on `'-'` (used by the date parser). -/
def splitOnDash : List Char → List (List Char)
  | [] => [[]]
  | c :: cs =>
    let r := splitOnDash cs
    if c = '-' then [] :: r
    else
      match r with
      | [] => [[c]]
      | g :: gs => (c :: g) :: gs

/-- Auxiliary decimal accumulator for `digitsVal`. -/
def digitsValAux : List Char → Nat → Option Nat
  | [], acc => some acc
  | c :: cs, acc =>
    if '0' ≤ c ∧ c ≤ '9' then digitsValAux cs (acc * 10 + (c.toNat - 48))
    else none

/-- Value of a nonempty all-digit character list; `none` otherwise. -/
def digitsVal (cs : List Char) : Option Nat :=
  if cs.isEmpty then none else digitsValAux cs 0

/-- Modelled from CPython's `datetime.strptime(s, "%Y-%m-%d")` (library
code, not part of this repository): `%Y` matches four digits, `%m` and
`%d` one or two digits, the month must lie in 1..12 and the day must fit
the month (otherwise `ValueError`); the whole string must be consumed. -/
def parseDateYMD (s : String) : Option Civil :=
  match splitOnDash s.toList with
  | [ys, ms, ds] =>
    match digitsVal ys, digitsVal ms, digitsVal ds with
    | some y, some m, some d =>
      if ys.length = 4 ∧ ms.length ≤ 2 ∧ ds.length ≤ 2
          ∧ 1 ≤ y ∧ 1 ≤ m ∧ m ≤ 12 ∧ 1 ≤ d ∧ d ≤ daysInMonth y m
      then some ⟨y, m, d⟩ else none
    | _, _, _ => none
  | _ => none

/-- The datetime at midnight of a civil date, as `strptime` returns. -/
def civilMidnight (c : Civil) : Nat := civilToDay c * usPerDay

/-! ## Generic association-list lookup (first match, like a dict keyed by
the md5 preimage / a filesystem keyed by file name) -/

/-- First-match association lookup. -/
def alookup {α β : Type _} [DecidableEq α] (k : α) : List (α × β) → Option β
  | [] => none
  | p :: t => if p.1 = k then some p.2 else alookup k t

/-! ## weather_service.py -/

/-- One processed hourly weather entry as built by
`WeatherService.get_weather_forecast` (lines 209-224): a dict with the ten
numeric fields, the hour, an isoformat timestamp and two text fields. -/
structure WeatherHour where
  hour : Nat
  timestampStr : String
  fields : List (String × ℚ)
  weatherMain : String
  weatherDesc : String
deriving DecidableEq

/-- `dict.get(key, default)` on the numeric fields of a weather dict. -/
def wget (w : WeatherHour) (key : String) (dflt : ℚ) : ℚ :=
  match alookup key w.fields with
  | some v => v
  | none => dflt

/-- The processed forecast: a dict from date strings to hourly entries. -/
abbrev WeatherForecast := List (String × List WeatherHour)

/-- One entry of the persisted call-log history. -/
structure CallLogEntry where
  timestamp : String
  endpoint : String
  success : Bool
deriving DecidableEq

/-- The API call log (`weather_service.py` lines 29-49). -/
structure CallLog where
  today : String
  callsToday : Nat
  lastReset : String
  history : List CallLogEntry
deriving DecidableEq

/-- Key data fed to md5 for a weather cache file (line 87):
`f"{lat}_{lon}_{start_date}_{end_date}"`. -/
structure WeatherCacheKey where
  lat : ℚ
  lon : ℚ
  startDate : String
  endDate : String
deriving DecidableEq

/-- Contents of a weather cache file (lines 120-127). -/
structure WeatherCacheFile where
  data : WeatherForecast
  cachedAt : String
  lat : ℚ
  lon : ℚ
  dateRange : String
deriving DecidableEq

/-- The weather service state: the in-memory call log (`self.call_log`),
the persisted call-log file, and the cache directory (file mtime in
`time.time()` seconds, then contents). -/
structure WSState where
  memLog : CallLog
  fileLog : CallLog
  cache : List (WeatherCacheKey × (ℚ × WeatherCacheFile))
deriving DecidableEq

/-- One raw hourly entry of the provider response (`'hourly'` array);
absent JSON keys are `none`. `dt` is the provider timestamp in seconds. -/
structure RawHourly where
  dt : ℚ
  uvi : Option ℚ
  temp : Option ℚ
  humidity : Option ℚ
  pressure : Option ℚ
  dew_point : Option ℚ
  wind_speed : Option ℚ
  wind_deg : Option ℚ
  clouds : Option ℚ
  visibility : Option ℚ
  rain1h : Option ℚ
  snow1h : Option ℚ
  weatherMain : Option String
  weatherDesc : Option String

/-- A raw provider response body. -/
structure RawWeather where
  hourly : List RawHourly

/-- The ambient environment of one service invocation: `datetime.now()`
(a single instant for the whole invocation), `time.time()` on the same
clock in seconds, and the outcome the HTTP layer would produce
(`none` = `requests.exceptions.RequestException`). -/
structure Env where
  now : Nat
  nowSec : ℚ
  http : Option RawWeather

/-- `self.max_calls_per_day` (line 23). -/
def maxCallsPerDay : Nat := 950

/-- `WeatherService._check_rate_limit` (lines 56-66): day-rollover reset
of the in-memory log (no save), then `calls_today < max_calls_per_day`. -/
def checkRateLimit (todayStr nowIso : String) (log : CallLog) : CallLog × Bool :=
  let log' :=
    if log.today ≠ todayStr then
      { log with today := todayStr, callsToday := 0, lastReset := nowIso }
    else log
  (log', log'.callsToday < maxCallsPerDay)

/-- `_check_rate_limit` acting on the service state: only the in-memory
log is touched (the source does not call `_save_call_log` here). -/
def checkRateLimitS (todayStr nowIso : String) (s : WSState) : WSState × Bool :=
  let (log', ok) := checkRateLimit todayStr nowIso s.memLog
  ({ s with memLog := log' }, ok)

/-- `WeatherService._log_api_call` (lines 68-83): increment the counter,
append a history entry, keep only the last 1000 entries, then
`_save_call_log` (file := memory). -/
def logApiCall (nowIso endpoint : String) (success : Bool) (s : WSState) : WSState :=
  let hist := s.memLog.history ++ [⟨nowIso, endpoint, success⟩]
  let hist := if hist.length > 1000 then hist.drop (hist.length - 1000) else hist
  let mem := { s.memLog with callsToday := s.memLog.callsToday + 1, history := hist }
  { s with memLog := mem, fileLog := mem }

/-- `WeatherService.get_api_stats` (lines 268-276), reading the
in-memory log. -/
structure ApiStats where
  callsToday : Nat
  maxCalls : Nat
  remainingCalls : Int
  lastReset : String
  today : String
deriving DecidableEq

/-- `get_api_stats` body. -/
def getApiStats (log : CallLog) : ApiStats :=
  ⟨log.callsToday, maxCallsPerDay, (maxCallsPerDay : Int) - (log.callsToday : Int),
    log.lastReset, log.today⟩

/-- `WeatherService._is_cache_valid` (lines 94-101): `false` when the
file does not exist, otherwise `time.time() - mtime <= max_age * 60`. -/
def isCacheValid (nowSec : ℚ) (mtime : Option ℚ) (maxAgeMinutes : ℚ) : Bool :=
  match mtime with
  | none => false
  | some t => nowSec - t ≤ maxAgeMinutes * 60

/-- `WeatherService.get_cached_weather` (lines 103-113): fresh-only
lookup, returning the `data` payload. The call site passes the default
`max_age_minutes=10`. -/
def getCachedWeather (nowSec : ℚ) (lat lon : ℚ) (startDate endDate : String)
    (cache : List (WeatherCacheKey × (ℚ × WeatherCacheFile))) : Option WeatherForecast :=
  let key : WeatherCacheKey := ⟨lat, lon, startDate, endDate⟩
  match alookup key cache with
  | some (mtime, file) =>
    if isCacheValid nowSec (some mtime) 10 then some file.data else none
  | none => none

/-- `WeatherService._get_precipitation` (lines 262-266). -/
def getPrecipitation (f : RawHourly) : ℚ := f.rain1h.getD 0 + f.snow1h.getD 0

/-- `WeatherService._find_closest_hourly` (lines 247-260): entry with
minimal `|dt - target|` (first wins on ties, strict improvement), but
only if within 3600 seconds. -/
def findClosestHourly (hourly : List RawHourly) (targetSec : ℚ) : Option RawHourly :=
  let best := hourly.foldl
    (fun acc f =>
      let d := |f.dt - targetSec|
      match acc with
      | none => some (f, d)
      | some (g, md) => if d < md then some (f, d) else some (g, md))
    none
  match best with
  | some (f, md) => if md ≤ 3600 then some f else none
  | none => none

/-- One processed hourly dict (source lines 209-224), with the
`.get(...)` defaults of the raw entry applied. -/
def mkWeatherHour (h : Nat) (target : Nat) (f : RawHourly) : WeatherHour :=
  { hour := h
    timestampStr := isoFormat target
    fields :=
      [("uv_index", f.uvi.getD 0),
       ("temperature_c", f.temp.getD 15),
       ("humidity_pct", f.humidity.getD 50),
       ("pressure_kpa", f.pressure.getD 1013 / 10),
       ("dew_point_c", f.dew_point.getD 10),
       ("wind_speed_ms", f.wind_speed.getD 3),
       ("wind_direction_deg", f.wind_deg.getD 0),
       ("clouds_pct", f.clouds.getD 50),
       ("visibility_m", f.visibility.getD 10000),
       ("precipitation_mmh", getPrecipitation f)]
    weatherMain := (f.weatherMain.getD "Clear")
    weatherDesc := (f.weatherDesc.getD "clear sky") }

/-- Processing of the raw response (source lines 190-224): for today and
tomorrow, each hour 0..23, skip targets more than 48 hours ahead, and
keep the closest raw entry within one hour. The provider `dt` seconds
and `target_time.timestamp()` are on the same clock in this model. -/
def buildForecasts (hourly : List RawHourly) (now : Nat) : WeatherForecast :=
  (List.range 2).map (fun dayOff =>
    let dayIdx := dtDate now + dayOff
    let dateStr := formatDate dayIdx
    (dateStr,
      (List.range 24).filterMap (fun h =>
        let target : Nat := dayIdx * usPerDay + h * usPerHour
        if ((target : Int) - (now : Int)) > 48 * 3600 * 1000000 then none
        else
          match findClosestHourly hourly ((target : ℚ) / 1000000) with
          | some f => some (mkWeatherHour h target f)
          | none => none)))

/-- Result of `get_weather_forecast`: the returned payload, the updated
service state, and how many HTTP requests were performed. -/
structure WFetch where
  result : Option WeatherForecast
  ws : WSState
  httpCalls : Nat

/-- `WeatherService.get_weather_forecast` (lines 131-245): parse dates
(failure is swallowed by the `except` and yields `None`), clamp the end
date to 48 hours from now, fresh-cache lookup unless `force_fresh`, then
the rate-limit gate: under quota an HTTP call is made and logged (success
or failure) and a successful response is processed and cached; at quota
the cache is re-read ignoring freshness (stale fallback) and `None` is
returned when no file exists. -/
def getWeatherForecast (env : Env) (lat lon : ℚ) (startDate endDate : String)
    (forceFresh : Bool) (s : WSState) : WFetch :=
  match parseDateYMD endDate, parseDateYMD startDate with
  | some ec, some _sc =>
    let endMid := civilMidnight ec
    let maxEnd := env.now + 48 * usPerHour
    let endStr := if endMid > maxEnd then formatDate (dtDate maxEnd) else endDate
    let freshHit : Option WeatherForecast :=
      if forceFresh then none
      else getCachedWeather env.nowSec lat lon startDate endStr s.cache
    match freshHit with
    | some data => ⟨some data, s, 0⟩
    | none =>
      let rl := checkRateLimitS (formatDate (dtDate env.now)) (isoFormat env.now) s
      let s1 := rl.1
      if rl.2 then
        match env.http with
        | some raw =>
          let s2 := logApiCall (isoFormat env.now) "onecall" true s1
          let fc := buildForecasts raw.hourly env.now
          let key : WeatherCacheKey := ⟨lat, lon, startDate, endStr⟩
          let file : WeatherCacheFile :=
            ⟨fc, isoFormat env.now, lat, lon, startDate ++ "_" ++ endStr⟩
          let s3 := { s2 with cache := (key, (env.nowSec, file)) :: s2.cache }
          ⟨some fc, s3, 1⟩
        | none =>
          let s2 := logApiCall (isoFormat env.now) "onecall" false s1
          ⟨none, s2, 1⟩
      else
        let key : WeatherCacheKey := ⟨lat, lon, startDate, endStr⟩
        match alookup key s1.cache with
        | some (_, file) => ⟨some file.data, s1, 0⟩
        | none => ⟨none, s1, 0⟩
  | _, _ => ⟨none, s, 0⟩

/-! ## node_service.py: feature building and the model runtime -/

/-- Character-list prefix test (helper for Python's substring `in`). -/
def leadsWith : List Char → List Char → Bool
  | [], _ => true
  | _ :: _, [] => false
  | a :: as, b :: bs => a == b && leadsWith as bs

/-- Character-list substring test. -/
def hasSubAux (needle : List Char) : List Char → Bool
  | [] => needle.isEmpty
  | c :: t => leadsWith needle (c :: t) || hasSubAux needle t

/-- Python's `needle in hay` on strings. -/
def strHasSub (needle hay : String) : Bool := hasSubAux needle.toList hay.toList

/-- The loaded model artifact (`node_service.py` lines 38-46). The fitted
scaler + regressor composite, numpy's `sin(2πx)`/`cos(2πx)` and `expm1`
are opaque external numerics, so they are parameters here;
`scaleAndPredict` may raise (the per-hour loop catches that). -/
structure SolarModel where
  modelName : String
  featureNames : List String
  r2 : ℚ
  sin2pi : ℚ → ℚ
  cos2pi : ℚ → ℚ
  scaleAndPredict : List ℚ → Except String ℚ
  expm1Q : ℚ → ℚ

/-- Default weather feature values used when no weather dict is given
(lines 127-138). -/
def weatherDefaults : List (String × ℚ) :=
  [("uv_index", 1), ("temperature_c", 15), ("humidity_pct", 50),
   ("pressure_kpa", 101.3), ("dew_point_c", 10), ("wind_speed_ms", 3),
   ("wind_direction_deg", 180), ("clouds_pct", 50),
   ("visibility_m", 10000), ("precipitation_mmh", 0)]

/-- The `weather_map` built from a provided weather dict, with the same
`.get` defaults (lines 112-123). -/
def weatherMapOf (w : WeatherHour) : List (String × ℚ) :=
  [("uv_index", wget w "uv_index" 1),
   ("temperature_c", wget w "temperature_c" 15),
   ("humidity_pct", wget w "humidity_pct" 50),
   ("pressure_kpa", wget w "pressure_kpa" 101.3),
   ("dew_point_c", wget w "dew_point_c" 10),
   ("wind_speed_ms", wget w "wind_speed_ms" 3),
   ("wind_direction_deg", wget w "wind_direction_deg" 180),
   ("clouds_pct", wget w "clouds_pct" 50),
   ("visibility_m", wget w "visibility_m" 10000),
   ("precipitation_mmh", wget w "precipitation_mmh" 0)]

/-- The Calgary day-length table (lines 162-167), `.get(month, 12.0)`. -/
def dayLengthHours (month : Nat) : ℚ :=
  match month with
  | 1 => 8.5 | 2 => 10 | 3 => 11.8 | 4 => 13.7 | 5 => 15.3 | 6 => 16.3
  | 7 => 16 | 8 => 14.5 | 9 => 12.7 | 10 => 10.8 | 11 => 9.1 | 12 => 8.2
  | _ => 12

/-- The season code (lines 151-159). -/
def seasonOf (month : Nat) : ℚ :=
  if month = 12 ∨ month = 1 ∨ month = 2 then 0
  else if month = 3 ∨ month = 4 ∨ month = 5 then 1
  else if month = 6 ∨ month = 7 ∨ month = 8 then 2
  else 3

/-- `SolarForecastService.create_features_from_datetime` (lines 100-175):
the feature dict, in insertion order. -/
def createFeaturesFromDatetime (m : SolarModel) (t : Nat)
    (w : Option WeatherHour) : List (String × ℚ) :=
  let hour := dtHour t
  let month := dtMonth t
  let dayOfYear := dayOfYearOf (dtDate t)
  (match w with
   | some wd => weatherMapOf wd
   | none => weatherDefaults)
  ++ [("hour_sin", m.sin2pi ((hour : ℚ) / 24)),
      ("hour_cos", m.cos2pi ((hour : ℚ) / 24)),
      ("month_sin", m.sin2pi ((month : ℚ) / 12)),
      ("month_cos", m.cos2pi ((month : ℚ) / 12)),
      ("day_of_year_sin", m.sin2pi ((dayOfYear : ℚ) / 365)),
      ("day_of_year_cos", m.cos2pi ((dayOfYear : ℚ) / 365)),
      ("is_daylight", if 6 ≤ hour ∧ hour ≤ 21 then 1 else 0),
      ("season", seasonOf month),
      ("day_length_hours", dayLengthHours month),
      ("hour", (hour : ℚ)),
      ("month", (month : ℚ)),
      ("day_of_week", (weekdayOf (dtDate t) : ℚ)),
      ("day_of_year", (dayOfYear : ℚ))]

/-- The per-name default used for a declared feature the builder did not
produce (lines 190-200): substring matching on the feature name. -/
def defaultForMissing (name : String) : ℚ :=
  if strHasSub "uv" name then 1
  else if strHasSub "temp" name then 15
  else if strHasSub "cloud" name then 50
  else if strHasSub "sin" name || strHasSub "cos" name then 0
  else 0

/-- The `missing_features` list collected in `predict_for_datetime`
(lines 186-189), in declared-feature order. -/
def missingFeatures (m : SolarModel) (t : Nat) (w : Option WeatherHour) :
    List String :=
  m.featureNames.filter
    (fun req => (alookup req (createFeaturesFromDatetime m t w)).isNone)

/-- The value a declared feature gets in the DataFrame after the
missing-feature fill (lines 185-200). -/
def fillMissing (features : List (String × ℚ)) (req : String) : ℚ :=
  match alookup req features with
  | some v => v
  | none => defaultForMissing req

/-- The reordered feature vector handed to the scaler (line 206):
`features_df[self.feature_names]`. -/
def orderedFeatureVector (m : SolarModel) (t : Nat)
    (w : Option WeatherHour) : List ℚ :=
  m.featureNames.map (fillMissing (createFeaturesFromDatetime m t w))

/-- `SolarForecastService.predict_for_datetime` (lines 177-218): build
features, fill and reorder, scale + predict in log1p space, `expm1`
back, floor at 0; returns the prediction and the missing-feature list. -/
def predictForDatetime (m : SolarModel) (t : Nat) (w : Option WeatherHour) :
    Except String (ℚ × List String) :=
  match m.scaleAndPredict (orderedFeatureVector m t w) with
  | .ok predLog => .ok (max 0 (m.expm1Q predLog), missingFeatures m t w)
  | .error e => .error e

/-! ## node_service.py: predict_range -/

/-- Rational floor. -/
def ratFloor (x : ℚ) : ℤ := Int.fdiv x.num (x.den : Int)

/-- Python's `round(x, 2)` modelled as round-half-up to 2 decimals (the
float tie-to-even detail is not relied on by any claim). -/
def pyRound2 (x : ℚ) : ℚ := (ratFloor (x * 100 + 1/2) : ℚ) / 100

/-- The weather snapshot embedded in a prediction record
(lines 318-325). -/
structure RecWeather where
  uv_index : ℚ
  temperature_c : ℚ
  clouds_pct : ℚ
  precipitation_mmh : ℚ
  weather_main : String
  weather_description : String
deriving DecidableEq

/-- Weather snapshot of a record, with the source's `.get` defaults. -/
def mkRecWeather (wh : WeatherHour) : RecWeather :=
  ⟨wget wh "uv_index" 0, wget wh "temperature_c" 0, wget wh "clouds_pct" 0,
   wget wh "precipitation_mmh" 0, wh.weatherMain, wh.weatherDesc⟩

/-- One per-hour prediction record. Keys that some variants of the dict
lack are `Option`/defaulted: plain records carry `is_forecast` and no
`error`; per-hour failure records carry `error` and no `is_forecast`;
only the synthesized fallback record has `is_fallback := true`. -/
structure PredictionRecord where
  timestamp : Nat
  predicted_kw : ℚ
  hour : Nat
  date : String
  is_daylight : Nat
  is_forecast : Option Nat
  weather : Option RecWeather
  error : Option String
  is_fallback : Bool
deriving DecidableEq

/-- A successful per-hour record (lines 307-314 plus 317-325). -/
def okRecord (t now : Nat) (h : Nat) (dateStr : String) (kw : ℚ)
    (hw : Option WeatherHour) : PredictionRecord :=
  { timestamp := truncToHour t
    predicted_kw := pyRound2 kw
    hour := h
    date := dateStr
    is_daylight := 1
    is_forecast := some (if now < t then 1 else 0)
    weather := hw.map mkRecWeather
    error := none
    is_fallback := false }

/-- A per-hour failure record (lines 336-343). -/
def errRecord (t : Nat) (h : Nat) (dateStr : String) (e : String) :
    PredictionRecord :=
  { timestamp := t
    predicted_kw := 0
    hour := h
    date := dateStr
    is_daylight := 1
    is_forecast := none
    weather := none
    error := some e
    is_fallback := false }

/-- The synthesized fallback record (lines 355-363). -/
def fallbackRecord (now : Nat) (kw : ℚ) : PredictionRecord :=
  { timestamp := now
    predicted_kw := pyRound2 kw
    hour := dtHour now
    date := formatDate (dtDate now)
    is_daylight := if 6 ≤ dtHour now ∧ dtHour now ≤ 21 then 1 else 0
    is_forecast := some 0
    weather := none
    error := none
    is_fallback := true }

/-- `next_hour` computation (lines 269-271): truncate to the whole hour,
then add an hour iff minutes or seconds are nonzero (microseconds are
not consulted by the source). -/
def nextWholeHour (t : Nat) : Nat :=
  let base := truncToHour t
  if 0 < dtMinute t ∨ 0 < dtSecond t then base + usPerHour else base

/-- The exact-hour weather lookup of the loop body (lines 294-300):
`weather_forecast and date_str in weather_forecast`, then the first
entry whose `'hour'` matches. -/
def hourWeatherFor (wf : Option WeatherForecast) (dateStr : String) (h : Nat) :
    Option WeatherHour :=
  match wf with
  | some f =>
    match alookup dateStr f with
    | some hours => hours.find? (fun x => x.hour == h)
    | none => none
  | none => none

/-- One daylight iteration of the loop body (lines 290-343): weather
lookup, prediction, and the record it appends — an error record when the
prediction raises (in which case nothing extends the missing list). -/
def loopStep (m : SolarModel) (wf : Option WeatherForecast) (now t : Nat) :
    PredictionRecord × List String :=
  let h := dtHour t
  let dateStr := formatDate (dtDate t)
  let hourWeather := hourWeatherFor wf dateStr h
  match predictForDatetime m t hourWeather with
  | .ok (kw, missing) => (okRecord t now h dateStr kw hourWeather, missing)
  | .error e => (errRecord t h dateStr e, [])

/-- The per-hour prediction loop (lines 279-347), recursing on the
remaining iteration budget (48 at the top call): breaks once the step's
date passes the end date, skips non-daylight hours, otherwise runs one
`loopStep`. Returns the records, the accumulated missing-feature names,
and the instants at which the model was invoked. -/
def predictLoop (m : SolarModel) (wf : Option WeatherForecast)
    (nextHour : Nat) (endIdx : Nat) (now : Nat) :
    Nat → Nat → List PredictionRecord × List String × List Nat
  | _, 0 => ([], [], [])
  | off, fuel + 1 =>
    let t := nextHour + off * usPerHour
    if endIdx < dtDate t then ([], [], [])
    else
      if 6 ≤ dtHour t ∧ dtHour t ≤ 21 then
        let step := loopStep m wf now t
        let rest := predictLoop m wf nextHour endIdx now (off + 1) fuel
        (step.1 :: rest.1, step.2 ++ rest.2.1, t :: rest.2.2)
      else
        predictLoop m wf nextHour endIdx now (off + 1) fuel

/-! ## node_service.py: result assembly, result cache, predict_range -/

/-- Key data fed to md5 for a result cache file (line 70):
`f"{start_date}_{end_date}_{lat}_{lon}_{use_weather}"`. -/
structure ResultCacheKey where
  startDate : String
  endDate : String
  lat : ℚ
  lon : ℚ
  useWeather : Bool
deriving DecidableEq

/-- The `_cached` block added by `_cache_result` (lines 90-93). -/
structure CachedMark where
  cached_at : String
  cache_key : ResultCacheKey
deriving DecidableEq

/-- `summary.weather_quality` (lines 390-393). -/
structure WeatherQuality where
  weather_data_available : Bool
  api_calls_remaining : Int
deriving DecidableEq

/-- `summary.date_range` (lines 382-388). -/
structure DateRangeSummary where
  startDate : String
  endDate : String
  actual_start : String
  actual_end : String
  hours_predicted : Nat
deriving DecidableEq

/-- The summary fields present only on the success shape. -/
structure SummaryExtra where
  valid_predictions : Nat
  date_range : DateRangeSummary
  avg_kw_per_day : ℚ
  weather_quality : WeatherQuality
deriving DecidableEq

/-- `result.summary`: the error shape (lines 441-445) carries only the
three zeroed fields, so the success-only fields sit behind an `Option`. -/
structure Summary where
  total_kwh : ℚ
  peak_kw : ℚ
  prediction_count : Nat
  extra : Option SummaryExtra
deriving DecidableEq

/-- `result.model_info` (lines 395-401 and 446-449). -/
structure ModelInfo where
  name : String
  r2_score : Option ℚ
  features_used : Option Nat
  missing_features : Option Nat
  weather_integrated : Bool
deriving DecidableEq

/-- `metadata.time_constraints` (lines 409-413). -/
structure TimeConstraints where
  max_hours_ahead : Nat
  current_time : String
  hours_predicted : Nat
deriving DecidableEq

/-- `metadata.cache_info` (lines 414-418). -/
structure CacheInfo where
  weather_cache_minutes : Nat
  result_cache_minutes : Nat
  used_cached_data : Bool
deriving DecidableEq

/-- `result.metadata` (lines 403-419 and 451-454). -/
structure Metadata where
  generated_at : String
  coordinates : Option (ℚ × ℚ)
  time_constraints : Option TimeConstraints
  cache_info : Option CacheInfo
  is_fallback : Bool
deriving DecidableEq

/-- A forecast response object. Keys absent from a given shape are
`none`. -/
structure ForecastResult where
  success : Bool
  error : Option String
  data : List PredictionRecord
  summary : Summary
  model_info : ModelInfo
  api_stats : Option ApiStats
  metadata : Metadata
  warning : Option String
  cachedMark : Option CachedMark
deriving DecidableEq

/-- The service-side state: the result cache directory (file mtime in
`time.time()` seconds, then the stored JSON document). -/
structure SolarState where
  resultCache : List (ResultCacheKey × (ℚ × ForecastResult))
deriving DecidableEq

/-- `SolarForecastService._get_cached_result` (lines 73-84), called with
the default `max_age_minutes=10`: the stored document, served only when
`time.time() - mtime <= 600`. -/
def getCachedResult (nowSec : ℚ) (key : ResultCacheKey) (svc : SolarState) :
    Option ForecastResult :=
  match alookup key svc.resultCache with
  | some (mtime, r) => if nowSec - mtime ≤ 10 * 60 then some r else none
  | none => none

/-- `SolarForecastService._cache_result` (lines 86-98): the `_cached`
block is added to the result object itself before writing, so the very
object returned to the caller carries it. -/
def cacheResult (env : Env) (key : ResultCacheKey) (result : ForecastResult)
    (svc : SolarState) : ForecastResult × SolarState :=
  let annotated := { result with cachedMark := some ⟨isoFormat env.now, key⟩ }
  (annotated, ⟨(key, (env.nowSec, annotated)) :: svc.resultCache⟩)

/-- Default Calgary coordinates (lines 48-50). -/
def defaultLat : ℚ := 51.0447

/-- Default Calgary longitude. -/
def defaultLon : ℚ := -114.0719

/-- Python's `x or default` on an optional float: `None` and `0.0` are
both falsy (lines 229-230). -/
def pyOrFloat (x : Option ℚ) (dflt : ℚ) : ℚ :=
  match x with
  | none => dflt
  | some v => if v = 0 then dflt else v

/-- `max(values)` guarded by emptiness (line 368). -/
def peakOf (vals : List ℚ) : ℚ :=
  match vals with
  | [] => 0
  | v :: rest => rest.foldl max v

/-- The warning attached when weather was requested but never attached
to any record (line 424). -/
def warnMsg : String :=
  "Using default weather values (API unavailable or rate limited)"

/-- Assembly of the success-shaped result (lines 365-424). -/
def buildSuccessResult (env : Env) (m : SolarModel) (startStr endStr : String)
    (clat clon : ℚ) (useWeather : Bool) (stats : ApiStats)
    (records : List PredictionRecord) (missingTot : List String) :
    ForecastResult :=
  let valid := records.filter (fun p => p.error.isNone)
  let totalKwh := (valid.map (fun p => p.predicted_kw)).sum
  let peakKw := peakOf (valid.map (fun p => p.predicted_kw))
  let available := records.any (fun p => p.weather.isSome)
  { success := true
    error := none
    data := records
    summary :=
      { total_kwh := pyRound2 totalKwh
        peak_kw := pyRound2 peakKw
        prediction_count := records.length
        extra := some
          { valid_predictions := valid.length
            date_range :=
              { startDate := (records.head?.map (fun p => p.date)).getD startStr
                endDate := (records.getLast?.map (fun p => p.date)).getD endStr
                actual_start :=
                  (records.head?.map (fun p => isoFormat p.timestamp)).getD startStr
                actual_end :=
                  (records.getLast?.map (fun p => isoFormat p.timestamp)).getD endStr
                hours_predicted := records.length }
            avg_kw_per_day :=
              pyRound2 (totalKwh /
                ((max 1 (records.map (fun p => p.date)).dedup.length : Nat) : ℚ))
            weather_quality :=
              { weather_data_available := available
                api_calls_remaining := stats.remainingCalls } } }
    model_info :=
      { name := m.modelName
        r2_score := some m.r2
        features_used := some m.featureNames.length
        missing_features := some missingTot.dedup.length
        weather_integrated := useWeather }
    api_stats := some stats
    metadata :=
      { generated_at := isoFormat env.now
        coordinates := some (clat, clon)
        time_constraints := some ⟨48, isoFormat env.now, records.length⟩
        cache_info := some ⟨10, 10, false⟩
        is_fallback := false }
    warning := if ¬available ∧ useWeather then some warnMsg else none
    cachedMark := none }

/-- The fallback object of the outer `except` (lines 437-455). Note
`'weather_service' in locals()` is false inside the method (it is a
module global), so `api_stats` is the empty dict, modelled as `none`. -/
def errorResult (e : String) (now : Nat) : ForecastResult :=
  { success := false
    error := some e
    data := []
    summary := { total_kwh := 0, peak_kw := 0, prediction_count := 0, extra := none }
    model_info :=
      { name := "Error", r2_score := none, features_used := none,
        missing_features := none, weather_integrated := false }
    api_stats := none
    metadata :=
      { generated_at := isoFormat now, coordinates := none,
        time_constraints := none, cache_info := none, is_fallback := true }
    warning := none
    cachedMark := none }

/-- The message `strptime` raises on a malformed date string. -/
def parseErrMsg : String := "time data does not match format %Y-%m-%d"

/-- Result of one `predict_range` invocation: the response, both updated
states, and the number of HTTP requests performed. -/
structure PROut where
  result : ForecastResult
  svc : SolarState
  ws : WSState
  httpCalls : Nat

/-- Lines 247-264: the weather fetch happens only when requested. -/
def weatherFetchOf (env : Env) (clat clon : ℚ) (startStr endStr : String)
    (useWeather forceFresh : Bool) (ws : WSState) : WFetch :=
  if useWeather then getWeatherForecast env clat clon startStr endStr forceFresh ws
  else ⟨none, ws, 0⟩

/-- Lines 365-429: assemble the success result and write it into the
result cache (`_cache_result` annotates the very object returned). -/
def assembleAndCache (env : Env) (m : SolarModel) (startStr endStr : String)
    (clat clon : ℚ) (useWeather : Bool) (stats : ApiStats)
    (records : List PredictionRecord) (missingTot : List String)
    (svc : SolarState) : ForecastResult × SolarState :=
  cacheResult env ⟨startStr, endStr, clat, clon, useWeather⟩
    (buildSuccessResult env m startStr endStr clat clon useWeather stats
      records missingTot) svc

/-- Lines 268-349: the loop output of one fresh computation — records,
missing-feature names and model-call instants. -/
def loopOutOf (env : Env) (m : SolarModel) (startStr endStr : String)
    (clat clon : ℚ) (useWeather forceFresh : Bool) (ed : Civil)
    (ws : WSState) : List PredictionRecord × List String × List Nat :=
  predictLoop m (weatherFetchOf env clat clon startStr endStr useWeather forceFresh ws).result
    (nextWholeHour env.now) (civilToDay ed) env.now 0 48

/-- The fresh-computation path of `predict_range` (lines 247-429),
entered after a result-cache miss: fetch weather if requested, read the
API stats, run the per-hour loop from the next whole hour, synthesize
the fallback record when the loop produced nothing (a failure of that
last prediction escapes to the outer `except`), assemble, cache and
return the (annotated) result. -/
def predictRangeFresh (env : Env) (m : SolarModel) (startStr endStr : String)
    (clat clon : ℚ) (useWeather forceFresh : Bool) (ed : Civil)
    (svc : SolarState) (ws : WSState) : PROut :=
  let fetch := weatherFetchOf env clat clon startStr endStr useWeather forceFresh ws
  let stats := getApiStats fetch.ws.memLog
  let out := loopOutOf env m startStr endStr clat clon useWeather forceFresh ed ws
  if out.1.isEmpty then
    match predictForDatetime m env.now none with
    | .error e => ⟨errorResult e env.now, svc, fetch.ws, fetch.httpCalls⟩
    | .ok (kw, _) =>
      let rc := assembleAndCache env m startStr endStr clat clon useWeather
        stats [fallbackRecord env.now kw] out.2.1 svc
      ⟨rc.1, rc.2, fetch.ws, fetch.httpCalls⟩
  else
    let rc := assembleAndCache env m startStr endStr clat clon useWeather
      stats out.1 out.2.1 svc
    ⟨rc.1, rc.2, fetch.ws, fetch.httpCalls⟩

/-- `SolarForecastService.predict_range` (lines 220-455): resolve
coordinates through Python's `or` (so `0.0` falls back to the Calgary
defaults), parse the two dates (a `ValueError` reaches the outer
`except` and produces the fallback object), serve a fresh result-cache
hit as-is unless `force_fresh`, otherwise compute freshly. -/
def predictRange (env : Env) (m : SolarModel) (startStr endStr : String)
    (lat lon : Option ℚ) (useWeather forceFresh : Bool)
    (svc : SolarState) (ws : WSState) : PROut :=
  let clat := pyOrFloat lat defaultLat
  let clon := pyOrFloat lon defaultLon
  match parseDateYMD startStr, parseDateYMD endStr with
  | some _sd, some ed =>
    let key : ResultCacheKey := ⟨startStr, endStr, clat, clon, useWeather⟩
    match (if forceFresh then none else getCachedResult env.nowSec key svc) with
    | some cached => ⟨cached, svc, ws, 0⟩
    | none =>
      predictRangeFresh env m startStr endStr clat clon useWeather forceFresh ed svc ws
  | _, _ => ⟨errorResult parseErrMsg env.now, svc, ws, 0⟩

/-- A forecast response is well formed at its failure boundary: whenever
`success` is false it is the fallback object shape — an error string, an
empty data array and a zeroed summary. -/
def wellFormedResult (r : ForecastResult) : Prop :=
  r.success = false →
    r.error.isSome = true ∧ r.data = [] ∧ r.summary.total_kwh = 0
    ∧ r.summary.peak_kw = 0 ∧ r.summary.prediction_count = 0
    ∧ r.summary.extra = none ∧ r.metadata.is_fallback = true

/-! ## Concrete fixtures used by counterexamples and witnesses -/

/-- A minimal concrete model artifact (no declared features; the opaque
numerics are constant zero). -/
def mTest : SolarModel :=
  ⟨"RF", [], 0, fun _ => 0, fun _ => 0, fun _ => Except.ok 0, fun _ => 0⟩

/-- A concrete model artifact declaring one feature name the builder
does not produce. -/
def mUv : SolarModel :=
  ⟨"RF", ["uv_boost"], 0, fun _ => 0, fun _ => 0, fun _ => Except.ok 0, fun _ => 0⟩

/-- A fresh call log for 2025-06-10. -/
def logA : CallLog := ⟨"2025-06-10", 0, "r", []⟩

/-- A call log at the daily quota for 2025-06-10. -/
def logQ : CallLog := ⟨"2025-06-10", 950, "r", []⟩

/-- 2025-06-10, 23:30:00 local. -/
def nowNight : Nat :=
  civilToDay ⟨2025, 6, 10⟩ * usPerDay + 23 * usPerHour + 30 * usPerMin

/-- Environment at `nowNight` whose HTTP layer would fail. -/
def envNight : Env := ⟨nowNight, 1000, none⟩

/-- Weather service state with a fresh log and empty cache. -/
def wsA : WSState := ⟨logA, logA, []⟩

/-- Weather service state at the daily quota with empty cache. -/
def wsQ : WSState := ⟨logQ, logQ, []⟩

/-- 2025-06-10, 10:00:00.500000 local: zero minutes and seconds but
nonzero microseconds. -/
def tC6 : Nat := civilToDay ⟨2025, 6, 10⟩ * usPerDay + 10 * usPerHour + 500000

/-! ## Helper lemmas -/

lemma alookup_mem {α β : Type _} [DecidableEq α] {k : α} {b : β} :
    ∀ {l : List (α × β)}, alookup k l = some b → (k, b) ∈ l := by
  intro l
  induction l with
  | nil => simp [alookup]
  | cons p t ih =>
    simp only [alookup]
    split_ifs with h
    · rintro ⟨rfl⟩
      exact h ▸ List.mem_cons_self _ _
    · intro hl
      exact List.mem_cons_of_mem _ (ih hl)

lemma alookup_cons_self {α β : Type _} [DecidableEq α] (k : α) (b : β)
    (l : List (α × β)) : alookup k ((k, b) :: l) = some b := by
  simp [alookup]

/-! ## C1: default-filling of declared-but-unproduced feature names -/

/-- C1 counterexample: with a declared feature name `"uv_boost"` that the
builder does not produce, the fill value is `1.0` (the substring rule),
not the `0.0` the spec prescribes for every missing name. -/
theorem C1_counterexample :
    alookup "uv_boost" (createFeaturesFromDatetime mUv 0 none) = none
    ∧ missingFeatures mUv 0 none = ["uv_boost"]
    ∧ fillMissing (createFeaturesFromDatetime mUv 0 none) "uv_boost" = 1
    ∧ orderedFeatureVector mUv 0 none = [1]
    ∧ (1 : ℚ) ≠ 0 := by
  refine ⟨?_, ?_, ?_, ?_, ?_⟩ <;> with_unfolding_all decide

/-- C1 amended: a declared feature name the builder did not produce is
reported as missing and filled — at its declared position in the ordered
vector — with the name-dependent default (1 for names containing `uv`,
15 for `temp`, 50 for `cloud`, 0 otherwise), never with a failure. -/
theorem C1_amended (m : SolarModel) (t : Nat) (w : Option WeatherHour)
    (req : String) (hreq : req ∈ m.featureNames)
    (hmiss : alookup req (createFeaturesFromDatetime m t w) = none) :
    req ∈ missingFeatures m t w
    ∧ fillMissing (createFeaturesFromDatetime m t w) req = defaultForMissing req
    ∧ ∀ i : Nat, m.featureNames[i]? = some req →
        (orderedFeatureVector m t w)[i]? = some (defaultForMissing req) := by
  refine ⟨?_, ?_, ?_⟩
  · exact List.mem_filter.2 ⟨hreq, by simp [hmiss]⟩
  · simp [fillMissing, hmiss]
  · intro i hi
    simp only [orderedFeatureVector, List.getElem?_map, hi]
    simp [fillMissing, hmiss]

/-- C1 amended, witness at a concrete model and instant. -/
theorem C1_amended_witness :
    "uv_boost" ∈ missingFeatures mUv 0 none
    ∧ fillMissing (createFeaturesFromDatetime mUv 0 none) "uv_boost"
        = defaultForMissing "uv_boost"
    ∧ ∀ i : Nat, (mUv.featureNames)[i]? = some "uv_boost" →
        (orderedFeatureVector mUv 0 none)[i]?
          = some (defaultForMissing "uv_boost") :=
  C1_amended mUv 0 none "uv_boost" (by with_unfolding_all decide)
    (by with_unfolding_all decide)

/-! ## C4: persistence of the call log -/

/-- C4 counterexample: the day-rollover reset inside `_check_rate_limit`
mutates only the in-memory log; the persisted file keeps the old day and
count, so the in-memory and persisted states disagree. -/
theorem C4_counterexample :
    ((checkRateLimitS "2025-06-10" "i"
        ⟨⟨"2025-06-09", 5, "r", []⟩, ⟨"2025-06-09", 5, "r", []⟩, []⟩).1.memLog
      ≠ (checkRateLimitS "2025-06-10" "i"
        ⟨⟨"2025-06-09", 5, "r", []⟩, ⟨"2025-06-09", 5, "r", []⟩, []⟩).1.fileLog)
    ∧ (checkRateLimitS "2025-06-10" "i"
        ⟨⟨"2025-06-09", 5, "r", []⟩, ⟨"2025-06-09", 5, "r", []⟩, []⟩).1.memLog.callsToday = 0
    ∧ (checkRateLimitS "2025-06-10" "i"
        ⟨⟨"2025-06-09", 5, "r", []⟩, ⟨"2025-06-09", 5, "r", []⟩, []⟩).1.fileLog.callsToday = 5 := by
  refine ⟨?_, ?_, ?_⟩ <;> with_unfolding_all decide

/-- C4 amended: `_log_api_call` persists synchronously (after it the file
equals memory and the counter has been incremented), while the rollover
reset inside `_check_rate_limit` touches neither the file nor the cache —
it is persisted only by the next logged call or process restart. -/
theorem C4_amended :
    (∀ (nowIso endpoint : String) (success : Bool) (s : WSState),
        (logApiCall nowIso endpoint success s).fileLog
          = (logApiCall nowIso endpoint success s).memLog
        ∧ (logApiCall nowIso endpoint success s).memLog.callsToday
          = s.memLog.callsToday + 1)
    ∧ (∀ (todayStr nowIso : String) (s : WSState),
        ((checkRateLimitS todayStr nowIso s).1).fileLog = s.fileLog
        ∧ ((checkRateLimitS todayStr nowIso s).1).cache = s.cache) := by
  constructor
  · intro n e su s
    exact ⟨rfl, rfl⟩
  · intro td n s
    exact ⟨rfl, rfl⟩

/-! ## C5: the 10-minute TTL boundary of both caches -/

/-- C5: an entry of either cache written at `T` is served at `now` iff
`now - T ≤ 600` seconds; in particular it is fresh at `T + 600 - ε` and
stale at `T + 600 + ε` for every positive `ε`. -/
theorem C5_ttl (now T ε : ℚ) (r : ForecastResult) (k : ResultCacheKey)
    (w : WeatherCacheFile) (kw : WeatherCacheKey) :
    (isCacheValid now (some T) 10 = true ↔ now - T ≤ 600)
    ∧ (getCachedResult now k ⟨[(k, (T, r))]⟩ = some r ↔ now - T ≤ 600)
    ∧ (getCachedWeather now kw.lat kw.lon kw.startDate kw.endDate [(kw, (T, w))]
        = some w.data ↔ now - T ≤ 600)
    ∧ (0 < ε →
        isCacheValid (T + 600 - ε) (some T) 10 = true
        ∧ isCacheValid (T + 600 + ε) (some T) 10 = false
        ∧ getCachedResult (T + 600 - ε) k ⟨[(k, (T, r))]⟩ = some r
        ∧ getCachedResult (T + 600 + ε) k ⟨[(k, (T, r))]⟩ = none) := by
  have h1 : ∀ x : ℚ, isCacheValid x (some T) 10 = true ↔ x - T ≤ 600 := by
    intro x
    simp [isCacheValid]
    norm_num
  have h2 : ∀ x : ℚ, getCachedResult x k ⟨[(k, (T, r))]⟩ = some r ↔ x - T ≤ 600 := by
    intro x
    simp only [getCachedResult, alookup_cons_self]
    split_ifs with h
    · simp
      linarith
    · simp
      linarith
  have h3 : getCachedWeather now kw.lat kw.lon kw.startDate kw.endDate
      [(kw, (T, w))] = some w.data ↔ now - T ≤ 600 := by
    simp only [getCachedWeather, alookup_cons_self]
    split_ifs with h
    · simp [(h1 now).1 h]
    · have hn : ¬(now - T ≤ 600) := fun hle => h ((h1 now).2 hle)
      simp [hn]
  refine ⟨h1 now, h2 now, h3, ?_⟩
  intro hε
  refine ⟨(h1 _).2 (by linarith), ?_, (h2 _).2 (by linarith), ?_⟩
  · have hnot : ¬((T + 600 + ε) - T ≤ 600) := by linarith
    have hne : ¬ isCacheValid (T + 600 + ε) (some T) 10 = true :=
      fun hc => hnot ((h1 _).1 hc)
    simpa using hne
  · simp only [getCachedResult, alookup_cons_self]
    rw [if_neg]
    linarith

/-- C5 witness at concrete times and cache contents. -/
theorem C5_ttl_witness :
    isCacheValid (599 : ℚ) (some 0) 10 = true
    ∧ isCacheValid (601 : ℚ) (some 0) 10 = false := by
  have h := (C5_ttl 0 0 1 (errorResult "e" 0) ⟨"s", "e", 1, 1, true⟩
    ⟨[], "c", 1, 1, "d"⟩ ⟨1, 1, "s", "e"⟩).2.2.2 (by norm_num)
  norm_num at h
  exact ⟨h.1, h.2.1⟩

/-! ## Loop characterization lemmas -/

lemma usPerHour_pos : 0 < usPerHour := by decide

lemma dtDate_mono {a b : Nat} (h : a ≤ b) : dtDate a ≤ dtDate b :=
  Nat.div_le_div_right h

lemma truncToHour_of_aligned {t : Nat} (h : t % usPerHour = 0) :
    truncToHour t = t := by
  simp [truncToHour, h]

lemma aligned_step {nh : Nat} (h : nh % usPerHour = 0) (k : Nat) :
    (nh + k * usPerHour) % usPerHour = 0 := by
  simp [Nat.add_mul_mod_self_right, h]

lemma loopStep_timestamp (m : SolarModel) (wf : Option WeatherForecast)
    (now t : Nat) (h : t % usPerHour = 0) :
    (loopStep m wf now t).1.timestamp = t
    ∧ (loopStep m wf now t).1.hour = dtHour t := by
  unfold loopStep
  cases hp : predictForDatetime m t (hourWeatherFor wf (formatDate (dtDate t)) (dtHour t)) with
  | ok v => simp [hp, okRecord, truncToHour_of_aligned h]
  | error e => simp [hp, errRecord]

lemma loopStep_no_weather (m : SolarModel) (now t : Nat) :
    (loopStep m none now t).1.weather = none := by
  unfold loopStep
  simp only [hourWeatherFor]
  cases hp : predictForDatetime m t none with
  | ok v => simp [hp, okRecord]
  | error e => simp [hp, errRecord]

lemma loopStep_not_fallback (m : SolarModel) (wf : Option WeatherForecast)
    (now t : Nat) :
    (loopStep m wf now t).1.is_fallback = false := by
  unfold loopStep
  cases hp : predictForDatetime m t (hourWeatherFor wf (formatDate (dtDate t)) (dtHour t)) with
  | ok v => simp [hp, okRecord]
  | error e => simp [hp, errRecord]

lemma predictLoop_mem_iff (m : SolarModel) (wf : Option WeatherForecast)
    (nh : Nat) (e : Nat) (now : Nat) :
    ∀ (fuel off : Nat) (r : PredictionRecord),
      r ∈ (predictLoop m wf nh e now off fuel).1 ↔
        ∃ k, off ≤ k ∧ k < off + fuel
          ∧ dtDate (nh + k * usPerHour) ≤ e
          ∧ 6 ≤ dtHour (nh + k * usPerHour) ∧ dtHour (nh + k * usPerHour) ≤ 21
          ∧ r = (loopStep m wf now (nh + k * usPerHour)).1 := by
  intro fuel
  induction fuel with
  | zero =>
    intro off r
    simp only [predictLoop, List.not_mem_nil, false_iff]
    rintro ⟨k, hk1, hk2, -⟩
    omega
  | succ n ih =>
    intro off r
    simp only [predictLoop]
    by_cases hdate : e < dtDate (nh + off * usPerHour)
    · rw [if_pos hdate]
      simp only [List.not_mem_nil, false_iff]
      rintro ⟨k, hk1, hk2, hind, -⟩
      have hmono : dtDate (nh + off * usPerHour) ≤ dtDate (nh + k * usPerHour) :=
        dtDate_mono (Nat.add_le_add_left (Nat.mul_le_mul_right usPerHour hk1) nh)
      omega
    · rw [if_neg hdate]
      by_cases hday : 6 ≤ dtHour (nh + off * usPerHour) ∧ dtHour (nh + off * usPerHour) ≤ 21
      · rw [if_pos hday]
        simp only [List.mem_cons, ih (off + 1)]
        constructor
        · rintro (rfl | ⟨k, hk1, hk2, h3, h4, h5, rfl⟩)
          · exact ⟨off, le_refl _, by omega, le_of_not_lt hdate, hday.1, hday.2, rfl⟩
          · exact ⟨k, by omega, by omega, h3, h4, h5, rfl⟩
        · rintro ⟨k, hk1, hk2, h3, h4, h5, rfl⟩
          rcases eq_or_lt_of_le hk1 with rfl | hlt
          · left; rfl
          · right; exact ⟨k, by omega, by omega, h3, h4, h5, rfl⟩
      · rw [if_neg hday]
        rw [ih (off + 1) r]
        constructor
        · rintro ⟨k, hk1, hk2, h3, h4, h5, rfl⟩
          exact ⟨k, by omega, by omega, h3, h4, h5, rfl⟩
        · rintro ⟨k, hk1, hk2, h3, h4, h5, rfl⟩
          rcases eq_or_lt_of_le hk1 with rfl | hlt
          · exact absurd ⟨h4, h5⟩ hday
          · exact ⟨k, by omega, by omega, h3, h4, h5, rfl⟩

lemma predictLoop_calls_iff (m : SolarModel) (wf : Option WeatherForecast)
    (nh : Nat) (e : Nat) (now : Nat) :
    ∀ (fuel off : Nat) (x : Nat),
      x ∈ (predictLoop m wf nh e now off fuel).2.2 ↔
        ∃ k, off ≤ k ∧ k < off + fuel
          ∧ dtDate (nh + k * usPerHour) ≤ e
          ∧ 6 ≤ dtHour (nh + k * usPerHour) ∧ dtHour (nh + k * usPerHour) ≤ 21
          ∧ x = nh + k * usPerHour := by
  intro fuel
  induction fuel with
  | zero =>
    intro off x
    simp only [predictLoop, List.not_mem_nil, false_iff]
    rintro ⟨k, hk1, hk2, -⟩
    omega
  | succ n ih =>
    intro off x
    simp only [predictLoop]
    by_cases hdate : e < dtDate (nh + off * usPerHour)
    · rw [if_pos hdate]
      simp only [List.not_mem_nil, false_iff]
      rintro ⟨k, hk1, hk2, hind, -⟩
      have hmono : dtDate (nh + off * usPerHour) ≤ dtDate (nh + k * usPerHour) :=
        dtDate_mono (Nat.add_le_add_left (Nat.mul_le_mul_right usPerHour hk1) nh)
      omega
    · rw [if_neg hdate]
      by_cases hday : 6 ≤ dtHour (nh + off * usPerHour) ∧ dtHour (nh + off * usPerHour) ≤ 21
      · rw [if_pos hday]
        simp only [List.mem_cons, ih (off + 1)]
        constructor
        · rintro (rfl | ⟨k, hk1, hk2, h3, h4, h5, rfl⟩)
          · exact ⟨off, le_refl _, by omega, le_of_not_lt hdate, hday.1, hday.2, rfl⟩
          · exact ⟨k, by omega, by omega, h3, h4, h5, rfl⟩
        · rintro ⟨k, hk1, hk2, h3, h4, h5, rfl⟩
          rcases eq_or_lt_of_le hk1 with rfl | hlt
          · left; rfl
          · right; exact ⟨k, by omega, by omega, h3, h4, h5, rfl⟩
      · rw [if_neg hday]
        rw [ih (off + 1) x]
        constructor
        · rintro ⟨k, hk1, hk2, h3, h4, h5, rfl⟩
          exact ⟨k, by omega, by omega, h3, h4, h5, rfl⟩
        · rintro ⟨k, hk1, hk2, h3, h4, h5, rfl⟩
          rcases eq_or_lt_of_le hk1 with rfl | hlt
          · exact absurd ⟨h4, h5⟩ hday
          · exact ⟨k, by omega, by omega, h3, h4, h5, rfl⟩

lemma predictLoop_length_le (m : SolarModel) (wf : Option WeatherForecast)
    (nh : Nat) (e : Nat) (now : Nat) :
    ∀ (fuel off : Nat), (predictLoop m wf nh e now off fuel).1.length ≤ fuel := by
  intro fuel
  induction fuel with
  | zero => intro off; simp [predictLoop]
  | succ n ih =>
    intro off
    simp only [predictLoop]
    split_ifs with h1 h2
    · simp
    · simpa using Nat.succ_le_succ (ih (off + 1))
    · exact le_trans (ih (off + 1)) (Nat.le_succ n)




lemma nextWholeHour_aligned (t : Nat) : nextWholeHour t % usPerHour = 0 := by
  simp only [nextWholeHour, truncToHour, usPerHour, usPerMin, usPerSec]
  split_ifs <;> omega

/-- C6 counterexample: at 10:00:00.500000 the source leaves the window
start at 10:00:00, which is strictly before "now" — the claim's "next
whole hour at or after the current time" fails when only microseconds
are nonzero (the source never consults them). -/
theorem C6_counterexample :
    dtMinute tC6 = 0 ∧ dtSecond tC6 = 0 ∧ dtMicro tC6 = 500000
    ∧ nextWholeHour tC6 < tC6 := by
  refine ⟨?_, ?_, ?_, ?_⟩ <;> with_unfolding_all decide

/-- C6 amended: the window starts at "now" truncated to the whole hour,
rounded up to the next hour exactly when minutes or seconds are nonzero
(so with only microseconds nonzero it precedes "now" by under a second);
the loop emits at most 48 records, every record lies on an hourly step
of that start, and no record's date exceeds the requested end date. -/
theorem C6_window :
    (∀ t : Nat, (0 < dtMinute t ∨ 0 < dtSecond t) →
        nextWholeHour t = truncToHour t + usPerHour ∧ t < nextWholeHour t)
    ∧ (∀ t : Nat, dtMinute t = 0 → dtSecond t = 0 →
        nextWholeHour t = truncToHour t ∧ nextWholeHour t ≤ t
        ∧ t - nextWholeHour t = dtMicro t)
    ∧ (∀ (m : SolarModel) (wf : Option WeatherForecast) (e : Nat) (now : Nat),
        (predictLoop m wf (nextWholeHour now) e now 0 48).1.length ≤ 48
        ∧ ∀ r ∈ (predictLoop m wf (nextWholeHour now) e now 0 48).1,
            dtDate r.timestamp ≤ e
            ∧ ∃ k, k < 48 ∧ r.timestamp = nextWholeHour now + k * usPerHour) := by
  refine ⟨?_, ?_, ?_⟩
  · intro t h
    rw [nextWholeHour, if_pos h]
    refine ⟨rfl, ?_⟩
    have h1 : t % usPerHour ≤ t := Nat.mod_le t _
    have h2 : t % usPerHour < usPerHour := Nat.mod_lt t usPerHour_pos
    simp only [truncToHour]
    omega
  · intro t hm hs
    have hcond : ¬(0 < dtMinute t ∨ 0 < dtSecond t) := by simp [hm, hs]
    rw [nextWholeHour, if_neg hcond]
    refine ⟨rfl, Nat.sub_le _ _, ?_⟩
    revert hm hs
    simp only [dtMinute, dtSecond, dtMicro, truncToHour, usPerHour, usPerMin, usPerSec]
    omega
  · intro m wf e now
    refine ⟨predictLoop_length_le m wf (nextWholeHour now) e now 48 0, ?_⟩
    intro r hr
    obtain ⟨k, -, hk, hdate, -, -, rfl⟩ :=
      (predictLoop_mem_iff m wf (nextWholeHour now) e now 48 0 r).1 hr
    have ht := (loopStep_timestamp m wf now _
      (aligned_step (nextWholeHour_aligned now) k)).1
    rw [ht]
    exact ⟨hdate, k, by omega, rfl⟩

/-- C6 amended, witness at concrete instants. -/
theorem C6_window_witness :
    (nextWholeHour (30 * usPerMin) = truncToHour (30 * usPerMin) + usPerHour
      ∧ 30 * usPerMin < nextWholeHour (30 * usPerMin))
    ∧ (nextWholeHour tC6 = truncToHour tC6 ∧ nextWholeHour tC6 ≤ tC6
      ∧ tC6 - nextWholeHour tC6 = dtMicro tC6) :=
  ⟨C6_window.1 (30 * usPerMin) (by with_unfolding_all decide),
   C6_window.2.1 tC6 (by with_unfolding_all decide) (by with_unfolding_all decide)⟩

/-- C7: for every processed hour of the window, a record is produced and
the model invoked iff the hour lies in [6, 21]; skipped hours produce
neither a record nor a model call. -/
theorem C7_daylight (m : SolarModel) (wf : Option WeatherForecast) (e : Nat)
    (now : Nat) (k : Nat) (hk : k < 48)
    (hd : dtDate (nextWholeHour now + k * usPerHour) ≤ e) :
    ((∃ r ∈ (predictLoop m wf (nextWholeHour now) e now 0 48).1,
        r.timestamp = nextWholeHour now + k * usPerHour)
      ↔ (6 ≤ dtHour (nextWholeHour now + k * usPerHour)
          ∧ dtHour (nextWholeHour now + k * usPerHour) ≤ 21))
    ∧ ((nextWholeHour now + k * usPerHour)
        ∈ (predictLoop m wf (nextWholeHour now) e now 0 48).2.2
      ↔ (6 ≤ dtHour (nextWholeHour now + k * usPerHour)
          ∧ dtHour (nextWholeHour now + k * usPerHour) ≤ 21)) := by
  have hal := nextWholeHour_aligned now
  constructor
  · constructor
    · rintro ⟨r, hr, hts⟩
      obtain ⟨j, -, hj, hdate', h6, h21, rfl⟩ :=
        (predictLoop_mem_iff m wf (nextWholeHour now) e now 48 0 r).1 hr
      have ht := (loopStep_timestamp m wf now _ (aligned_step hal j)).1
      rw [ht] at hts
      have hjk : j = k := by
        simp only [usPerHour, usPerMin, usPerSec] at hts
        omega
      subst hjk
      exact ⟨h6, h21⟩
    · intro hday
      refine ⟨(loopStep m wf now (nextWholeHour now + k * usPerHour)).1, ?_, ?_⟩
      · exact (predictLoop_mem_iff m wf (nextWholeHour now) e now 48 0 _).2
          ⟨k, Nat.zero_le _, by omega, hd, hday.1, hday.2, rfl⟩
      · exact (loopStep_timestamp m wf now _ (aligned_step hal k)).1
  · rw [predictLoop_calls_iff]
    constructor
    · rintro ⟨j, -, hj, hdate', h6, h21, heq⟩
      have hjk : j = k := by
        simp only [usPerHour, usPerMin, usPerSec] at heq
        omega
      subst hjk
      exact ⟨h6, h21⟩
    · intro hday
      exact ⟨k, Nat.zero_le _, by omega, hd, hday.1, hday.2, rfl⟩

/-- C7 witness at a concrete window. -/
theorem C7_daylight_witness :
    ((∃ r ∈ (predictLoop mTest none (nextWholeHour nowNight)
        (civilToDay ⟨2025, 6, 11⟩) nowNight 0 48).1,
        r.timestamp = nextWholeHour nowNight + 13 * usPerHour)
      ↔ (6 ≤ dtHour (nextWholeHour nowNight + 13 * usPerHour)
          ∧ dtHour (nextWholeHour nowNight + 13 * usPerHour) ≤ 21))
    ∧ ((nextWholeHour nowNight + 13 * usPerHour)
        ∈ (predictLoop mTest none (nextWholeHour nowNight)
            (civilToDay ⟨2025, 6, 11⟩) nowNight 0 48).2.2
      ↔ (6 ≤ dtHour (nextWholeHour nowNight + 13 * usPerHour)
          ∧ dtHour (nextWholeHour nowNight + 13 * usPerHour) ≤ 21)) :=
  C7_daylight mTest none (civilToDay ⟨2025, 6, 11⟩) nowNight 13
    (by with_unfolding_all decide) (by with_unfolding_all decide)


/-! ## Shape of one predict_range invocation -/

lemma predictRangeFresh_spec (env : Env) (m : SolarModel) (startStr endStr : String)
    (clat clon : ℚ) (uw ff : Bool) (ed : Civil) (svc : SolarState) (ws : WSState) :
    (predictRangeFresh env m startStr endStr clat clon uw ff ed svc ws).ws
      = (weatherFetchOf env clat clon startStr endStr uw ff ws).ws
    ∧ (predictRangeFresh env m startStr endStr clat clon uw ff ed svc ws).httpCalls
      = (weatherFetchOf env clat clon startStr endStr uw ff ws).httpCalls
    ∧ (((loopOutOf env m startStr endStr clat clon uw ff ed ws).1 = []
        ∧ ∃ err, predictForDatetime m env.now none = Except.error err
          ∧ (predictRangeFresh env m startStr endStr clat clon uw ff ed svc ws).result
              = errorResult err env.now
          ∧ (predictRangeFresh env m startStr endStr clat clon uw ff ed svc ws).svc = svc)
      ∨ (∃ recs,
          ((loopOutOf env m startStr endStr clat clon uw ff ed ws).1 ≠ []
              ∧ recs = (loopOutOf env m startStr endStr clat clon uw ff ed ws).1
            ∨ (loopOutOf env m startStr endStr clat clon uw ff ed ws).1 = []
              ∧ ∃ kw miss, predictForDatetime m env.now none = Except.ok (kw, miss)
                ∧ recs = [fallbackRecord env.now kw])
          ∧ (predictRangeFresh env m startStr endStr clat clon uw ff ed svc ws).result
              = (assembleAndCache env m startStr endStr clat clon uw
                  (getApiStats (weatherFetchOf env clat clon startStr endStr uw ff ws).ws.memLog)
                  recs (loopOutOf env m startStr endStr clat clon uw ff ed ws).2.1 svc).1
          ∧ (predictRangeFresh env m startStr endStr clat clon uw ff ed svc ws).svc
              = (assembleAndCache env m startStr endStr clat clon uw
                  (getApiStats (weatherFetchOf env clat clon startStr endStr uw ff ws).ws.memLog)
                  recs (loopOutOf env m startStr endStr clat clon uw ff ed ws).2.1 svc).2)) := by
  by_cases h : (loopOutOf env m startStr endStr clat clon uw ff ed ws).1.isEmpty
  · cases hp : predictForDatetime m env.now none with
    | error err =>
      have heq : predictRangeFresh env m startStr endStr clat clon uw ff ed svc ws
          = ⟨errorResult err env.now, svc,
             (weatherFetchOf env clat clon startStr endStr uw ff ws).ws,
             (weatherFetchOf env clat clon startStr endStr uw ff ws).httpCalls⟩ := by
        simp only [predictRangeFresh]
        rw [if_pos h, hp]
      rw [heq]
      exact ⟨rfl, rfl, Or.inl ⟨List.isEmpty_iff.1 h, err, rfl, rfl, rfl⟩⟩
    | ok v =>
      obtain ⟨kw, miss⟩ := v
      have heq : predictRangeFresh env m startStr endStr clat clon uw ff ed svc ws
          = ⟨(assembleAndCache env m startStr endStr clat clon uw
                (getApiStats (weatherFetchOf env clat clon startStr endStr uw ff ws).ws.memLog)
                [fallbackRecord env.now kw]
                (loopOutOf env m startStr endStr clat clon uw ff ed ws).2.1 svc).1,
              (assembleAndCache env m startStr endStr clat clon uw
                (getApiStats (weatherFetchOf env clat clon startStr endStr uw ff ws).ws.memLog)
                [fallbackRecord env.now kw]
                (loopOutOf env m startStr endStr clat clon uw ff ed ws).2.1 svc).2,
             (weatherFetchOf env clat clon startStr endStr uw ff ws).ws,
             (weatherFetchOf env clat clon startStr endStr uw ff ws).httpCalls⟩ := by
        simp only [predictRangeFresh]
        rw [if_pos h, hp]
      rw [heq]
      exact ⟨rfl, rfl, Or.inr ⟨[fallbackRecord env.now kw],
        Or.inr ⟨List.isEmpty_iff.1 h, kw, miss, rfl, rfl⟩, rfl, rfl⟩⟩
  · have heq : predictRangeFresh env m startStr endStr clat clon uw ff ed svc ws
        = ⟨(assembleAndCache env m startStr endStr clat clon uw
              (getApiStats (weatherFetchOf env clat clon startStr endStr uw ff ws).ws.memLog)
              (loopOutOf env m startStr endStr clat clon uw ff ed ws).1
              (loopOutOf env m startStr endStr clat clon uw ff ed ws).2.1 svc).1,
            (assembleAndCache env m startStr endStr clat clon uw
              (getApiStats (weatherFetchOf env clat clon startStr endStr uw ff ws).ws.memLog)
              (loopOutOf env m startStr endStr clat clon uw ff ed ws).1
              (loopOutOf env m startStr endStr clat clon uw ff ed ws).2.1 svc).2,
           (weatherFetchOf env clat clon startStr endStr uw ff ws).ws,
           (weatherFetchOf env clat clon startStr endStr uw ff ws).httpCalls⟩ := by
      simp only [predictRangeFresh]
      rw [if_neg h]
    rw [heq]
    refine ⟨rfl, rfl, Or.inr ⟨(loopOutOf env m startStr endStr clat clon uw ff ed ws).1,
      Or.inl ⟨?_, rfl⟩, rfl, rfl⟩⟩
    intro hnil
    exact h (by simp [hnil])

lemma predictRange_forceFresh (env : Env) (m : SolarModel) (s e : String)
    (lat lon : Option ℚ) (uw : Bool) (svc : SolarState) (ws : WSState)
    (sc ec : Civil) (hps : parseDateYMD s = some sc) (hpe : parseDateYMD e = some ec) :
    predictRange env m s e lat lon uw true svc ws
      = predictRangeFresh env m s e (pyOrFloat lat defaultLat)
          (pyOrFloat lon defaultLon) uw true ec svc ws := by
  simp only [predictRange, hps, hpe, if_true]

lemma predictRange_parse_fail_start (env : Env) (m : SolarModel) (s e : String)
    (lat lon : Option ℚ) (uw ff : Bool) (svc : SolarState) (ws : WSState)
    (hps : parseDateYMD s = none) :
    predictRange env m s e lat lon uw ff svc ws
      = ⟨errorResult parseErrMsg env.now, svc, ws, 0⟩ := by
  simp only [predictRange, hps]

lemma predictRange_parse_fail_end (env : Env) (m : SolarModel) (s e : String)
    (lat lon : Option ℚ) (uw ff : Bool) (svc : SolarState) (ws : WSState)
    (sc : Civil) (hps : parseDateYMD s = some sc) (hpe : parseDateYMD e = none) :
    predictRange env m s e lat lon uw ff svc ws
      = ⟨errorResult parseErrMsg env.now, svc, ws, 0⟩ := by
  simp only [predictRange, hps, hpe]


lemma aac_success (env : Env) (m : SolarModel) (s e : String) (clat clon : ℚ)
    (uw : Bool) (stats : ApiStats) (recs : List PredictionRecord)
    (mt : List String) (svc : SolarState) :
    (assembleAndCache env m s e clat clon uw stats recs mt svc).1.success = true := rfl

lemma aac_mark (env : Env) (m : SolarModel) (s e : String) (clat clon : ℚ)
    (uw : Bool) (stats : ApiStats) (recs : List PredictionRecord)
    (mt : List String) (svc : SolarState) :
    (assembleAndCache env m s e clat clon uw stats recs mt svc).1.cachedMark
      = some ⟨isoFormat env.now, ⟨s, e, clat, clon, uw⟩⟩ := rfl

lemma aac_data (env : Env) (m : SolarModel) (s e : String) (clat clon : ℚ)
    (uw : Bool) (stats : ApiStats) (recs : List PredictionRecord)
    (mt : List String) (svc : SolarState) :
    (assembleAndCache env m s e clat clon uw stats recs mt svc).1.data = recs := rfl

lemma aac_coords (env : Env) (m : SolarModel) (s e : String) (clat clon : ℚ)
    (uw : Bool) (stats : ApiStats) (recs : List PredictionRecord)
    (mt : List String) (svc : SolarState) :
    (assembleAndCache env m s e clat clon uw stats recs mt svc).1.metadata.coordinates
      = some (clat, clon) := rfl

lemma aac_store (env : Env) (m : SolarModel) (s e : String) (clat clon : ℚ)
    (uw : Bool) (stats : ApiStats) (recs : List PredictionRecord)
    (mt : List String) (svc : SolarState) :
    alookup ⟨s, e, clat, clon, uw⟩
        (assembleAndCache env m s e clat clon uw stats recs mt svc).2.resultCache
      = some (env.nowSec, (assembleAndCache env m s e clat clon uw stats recs mt svc).1) := by
  simp only [assembleAndCache, cacheResult]
  exact alookup_cons_self _ _ _

lemma aac_noweather (env : Env) (m : SolarModel) (s e : String) (clat clon : ℚ)
    (stats : ApiStats) (recs : List PredictionRecord) (mt : List String)
    (svc : SolarState) (h : ∀ r ∈ recs, r.weather = none) :
    (assembleAndCache env m s e clat clon true stats recs mt svc).1.warning = some warnMsg
    ∧ ∃ ex, (assembleAndCache env m s e clat clon true stats recs mt svc).1.summary.extra
          = some ex
        ∧ ex.weather_quality.weather_data_available = false := by
  have hav : (recs.any fun p => p.weather.isSome) = false := by
    rw [List.any_eq_false]
    intro r hr
    simp [h r hr]
  constructor
  · simp [assembleAndCache, cacheResult, buildSuccessResult, hav]
  · exact ⟨_, rfl, hav⟩

lemma errorResult_wellFormed (e : String) (now : Nat) :
    wellFormedResult (errorResult e now) := by
  intro hfail
  simp [errorResult]

/-- C9: `predict_range` never raises past its boundary — whenever the
response's `success` is false it is the fallback object: an error
string, an empty data array and a zeroed summary (provided every
document already in the result cache is likewise well formed, since a
cache hit is served as-is). -/
theorem C9_never_throws (env : Env) (m : SolarModel) (s e : String)
    (lat lon : Option ℚ) (uw ff : Bool) (svc : SolarState) (ws : WSState)
    (hc : ∀ p ∈ svc.resultCache, wellFormedResult p.2.2) :
    wellFormedResult (predictRange env m s e lat lon uw ff svc ws).result := by
  cases hps : parseDateYMD s with
  | none =>
    rw [predictRange_parse_fail_start env m s e lat lon uw ff svc ws hps]
    exact errorResult_wellFormed _ _
  | some sc =>
    cases hpe : parseDateYMD e with
    | none =>
      rw [predictRange_parse_fail_end env m s e lat lon uw ff svc ws sc hps hpe]
      exact errorResult_wellFormed _ _
    | some ec =>
      simp only [predictRange, hps, hpe]
      cases hcc : (if ff then none
          else getCachedResult env.nowSec
            ⟨s, e, pyOrFloat lat defaultLat, pyOrFloat lon defaultLon, uw⟩ svc) with
      | some cached =>
        show wellFormedResult cached
        have hg : getCachedResult env.nowSec
            ⟨s, e, pyOrFloat lat defaultLat, pyOrFloat lon defaultLon, uw⟩ svc
            = some cached := by
          cases ff
          · simpa using hcc
          · simp at hcc
        unfold getCachedResult at hg
        cases hal : alookup
            ⟨s, e, pyOrFloat lat defaultLat, pyOrFloat lon defaultLon, uw⟩
            svc.resultCache with
        | none => rw [hal] at hg; exact absurd hg (by simp)
        | some p =>
          obtain ⟨mt, r⟩ := p
          rw [hal] at hg
          dsimp only at hg
          split_ifs at hg with hfr
          have hrc : r = cached := by injection hg
          subst hrc
          exact hc _ (alookup_mem hal)
      | none =>
        show wellFormedResult (predictRangeFresh env m s e
          (pyOrFloat lat defaultLat) (pyOrFloat lon defaultLon) uw ff ec svc ws).result
        obtain ⟨-, -, hcases⟩ := predictRangeFresh_spec env m s e
          (pyOrFloat lat defaultLat) (pyOrFloat lon defaultLon) uw ff ec svc ws
        rcases hcases with ⟨-, err, -, hres, -⟩ | ⟨recs, -, hres, -⟩
        · rw [hres]
          exact errorResult_wellFormed _ _
        · rw [hres]
          intro hfail
          rw [aac_success] at hfail
          exact absurd hfail (by simp)

/-- C9 witness: a malformed start date at a concrete state. -/
theorem C9_never_throws_witness :
    wellFormedResult (predictRange envNight mTest "garbage" "2025-06-10"
      none none true false ⟨[]⟩ wsA).result :=
  C9_never_throws envNight mTest "garbage" "2025-06-10" none none true false
    ⟨[]⟩ wsA (by simp)


/-- C3 counterexample: a freshly computed result — the result cache is
empty, so nothing could have been served from it — carries the `_cached`
annotation, because `_cache_result` adds the block to the very object it
is about to return. -/
theorem C3_counterexample :
    (predictRange envNight mTest "2025-06-10" "2025-06-10" none none false false
      ⟨[]⟩ wsA).result.success = true
    ∧ (predictRange envNight mTest "2025-06-10" "2025-06-10" none none false false
      ⟨[]⟩ wsA).result.cachedMark.isSome = true := by
  constructor <;> with_unfolding_all rfl

/-- C3 amended: the `_cached` block (recording `cached_at` and the cache
key) is attached when the result is written into the ResultCache, so the
freshly computed result returned to the caller already carries it, and
the cached copy equals the returned object; its presence therefore does
not distinguish fresh from cached output. -/
theorem C3_amended (env : Env) (m : SolarModel) (s e : String)
    (lat lon : Option ℚ) (uw : Bool) (svc : SolarState) (ws : WSState)
    (hs : (predictRange env m s e lat lon uw true svc ws).result.success = true) :
    (predictRange env m s e lat lon uw true svc ws).result.cachedMark
      = some ⟨isoFormat env.now,
          ⟨s, e, pyOrFloat lat defaultLat, pyOrFloat lon defaultLon, uw⟩⟩
    ∧ alookup ⟨s, e, pyOrFloat lat defaultLat, pyOrFloat lon defaultLon, uw⟩
        (predictRange env m s e lat lon uw true svc ws).svc.resultCache
      = some (env.nowSec, (predictRange env m s e lat lon uw true svc ws).result) := by
  cases hps : parseDateYMD s with
  | none =>
    rw [predictRange_parse_fail_start env m s e lat lon uw true svc ws hps] at hs
    simp [errorResult] at hs
  | some sc =>
    cases hpe : parseDateYMD e with
    | none =>
      rw [predictRange_parse_fail_end env m s e lat lon uw true svc ws sc hps hpe] at hs
      simp [errorResult] at hs
    | some ec =>
      rw [predictRange_forceFresh env m s e lat lon uw svc ws sc ec hps hpe] at hs ⊢
      obtain ⟨-, -, hcases⟩ := predictRangeFresh_spec env m s e
        (pyOrFloat lat defaultLat) (pyOrFloat lon defaultLon) uw true ec svc ws
      rcases hcases with ⟨-, err, -, hres, -⟩ | ⟨recs, -, hres, hsvc⟩
      · rw [hres] at hs
        simp [errorResult] at hs
      · rw [hres, hsvc]
        exact ⟨aac_mark _ _ _ _ _ _ _ _ _ _ _, aac_store _ _ _ _ _ _ _ _ _ _ _⟩

/-- C3 amended, witness at a concrete fresh run. -/
theorem C3_amended_witness :
    (predictRange envNight mTest "2025-06-10" "2025-06-10" none none false true
      ⟨[]⟩ wsA).result.cachedMark
      = some ⟨isoFormat envNight.now,
          ⟨"2025-06-10", "2025-06-10", pyOrFloat none defaultLat,
           pyOrFloat none defaultLon, false⟩⟩
    ∧ alookup ⟨"2025-06-10", "2025-06-10", pyOrFloat none defaultLat,
          pyOrFloat none defaultLon, false⟩
        (predictRange envNight mTest "2025-06-10" "2025-06-10" none none false true
          ⟨[]⟩ wsA).svc.resultCache
      = some (envNight.nowSec,
          (predictRange envNight mTest "2025-06-10" "2025-06-10" none none false true
            ⟨[]⟩ wsA).result) :=
  C3_amended envNight mTest "2025-06-10" "2025-06-10" none none false ⟨[]⟩ wsA
    (by with_unfolding_all rfl)

/-- C8: on the fresh path, whenever the per-hour loop yields zero records
a successful response's data array is exactly one record flagged
`is_fallback`, and a successful response's data array is never empty. -/
theorem C8_fallback (env : Env) (m : SolarModel) (s e : String)
    (lat lon : Option ℚ) (uw : Bool) (svc : SolarState) (ws : WSState)
    (sc ec : Civil) (hps : parseDateYMD s = some sc) (hpe : parseDateYMD e = some ec)
    (hs : (predictRange env m s e lat lon uw true svc ws).result.success = true) :
    ((loopOutOf env m s e (pyOrFloat lat defaultLat) (pyOrFloat lon defaultLon)
        uw true ec ws).1 = [] →
      ∃ kw, (predictRange env m s e lat lon uw true svc ws).result.data
          = [fallbackRecord env.now kw]
        ∧ (predictRange env m s e lat lon uw true svc ws).result.data.length = 1
        ∧ ∀ r ∈ (predictRange env m s e lat lon uw true svc ws).result.data,
            r.is_fallback = true)
    ∧ (predictRange env m s e lat lon uw true svc ws).result.data ≠ [] := by
  rw [predictRange_forceFresh env m s e lat lon uw svc ws sc ec hps hpe] at hs ⊢
  obtain ⟨-, -, hcases⟩ := predictRangeFresh_spec env m s e
    (pyOrFloat lat defaultLat) (pyOrFloat lon defaultLon) uw true ec svc ws
  rcases hcases with ⟨-, err, -, hres, -⟩ | ⟨recs, hrecs, hres, -⟩
  · rw [hres] at hs
    simp [errorResult] at hs
  · rcases hrecs with ⟨hne, rfl⟩ | ⟨hnil, kw, miss, -, rfl⟩
    · constructor
      · intro hnil
        exact absurd hnil hne
      · rw [hres, aac_data]
        exact hne
    · constructor
      · intro _
        refine ⟨kw, ?_, ?_, ?_⟩
        · rw [hres, aac_data]
        · rw [hres, aac_data]
          rfl
        · rw [hres, aac_data]
          intro r hr
          simp at hr
          subst hr
          rfl
      · rw [hres, aac_data]
        simp

/-- C8 witness: a nighttime window whose loop yields zero records. -/
theorem C8_fallback_witness :
    ((loopOutOf envNight mTest "2025-06-10" "2025-06-10"
        (pyOrFloat none defaultLat) (pyOrFloat none defaultLon)
        false true ⟨2025, 6, 10⟩ wsA).1 = [] →
      ∃ kw, (predictRange envNight mTest "2025-06-10" "2025-06-10" none none
          false true ⟨[]⟩ wsA).result.data = [fallbackRecord envNight.now kw]
        ∧ (predictRange envNight mTest "2025-06-10" "2025-06-10" none none
            false true ⟨[]⟩ wsA).result.data.length = 1
        ∧ ∀ r ∈ (predictRange envNight mTest "2025-06-10" "2025-06-10" none none
            false true ⟨[]⟩ wsA).result.data, r.is_fallback = true)
    ∧ (predictRange envNight mTest "2025-06-10" "2025-06-10" none none
        false true ⟨[]⟩ wsA).result.data ≠ [] :=
  C8_fallback envNight mTest "2025-06-10" "2025-06-10" none none false ⟨[]⟩ wsA
    ⟨2025, 6, 10⟩ ⟨2025, 6, 10⟩ (by with_unfolding_all rfl)
    (by with_unfolding_all rfl) (by with_unfolding_all rfl)


/-- C10: a latitude or longitude of exactly 0.0 is falsy for Python's
`or`, so that coordinate — each independently, whatever the other one
is — is silently replaced by the Calgary default: a call with a zero
latitude behaves identically to a call with no latitude (and likewise
for longitude), the coordinates that reach the response metadata and
the result-cache key are `pyOrFloat`-resolved per coordinate, and
`pyOrFloat` maps `0.0` and `None` to the default while keeping every
nonzero value. -/
theorem C10_zero_coords :
    (∀ (env : Env) (m : SolarModel) (s e : String) (lon : Option ℚ)
        (uw ff : Bool) (svc : SolarState) (ws : WSState),
      predictRange env m s e (some 0) lon uw ff svc ws
        = predictRange env m s e none lon uw ff svc ws)
    ∧ (∀ (env : Env) (m : SolarModel) (s e : String) (lat : Option ℚ)
        (uw ff : Bool) (svc : SolarState) (ws : WSState),
      predictRange env m s e lat (some 0) uw ff svc ws
        = predictRange env m s e lat none uw ff svc ws)
    ∧ (∀ (env : Env) (m : SolarModel) (s e : String) (lat lon : Option ℚ)
        (uw : Bool) (svc : SolarState) (ws : WSState) (sc ec : Civil),
      parseDateYMD s = some sc → parseDateYMD e = some ec →
      (predictRange env m s e lat lon uw true svc ws).result.success = true →
        (predictRange env m s e lat lon uw true svc ws).result.metadata.coordinates
          = some (pyOrFloat lat defaultLat, pyOrFloat lon defaultLon)
        ∧ (predictRange env m s e lat lon uw true svc ws).result.cachedMark
          = some ⟨isoFormat env.now,
              ⟨s, e, pyOrFloat lat defaultLat, pyOrFloat lon defaultLon, uw⟩⟩
        ∧ (alookup ⟨s, e, pyOrFloat lat defaultLat, pyOrFloat lon defaultLon, uw⟩
            (predictRange env m s e lat lon uw true svc ws).svc.resultCache).isSome
          = true)
    ∧ (∀ d : ℚ, pyOrFloat (some 0) d = d ∧ pyOrFloat none d = d)
    ∧ (∀ x d : ℚ, x ≠ 0 → pyOrFloat (some x) d = x) := by
  have h0 : ∀ dflt : ℚ, pyOrFloat (some 0) dflt = pyOrFloat none dflt := by
    intro dflt
    simp [pyOrFloat]
  refine ⟨?_, ?_, ?_, ?_, ?_⟩
  · intro env m s e lon uw ff svc ws
    simp only [predictRange, h0]
  · intro env m s e lat uw ff svc ws
    simp only [predictRange, h0]
  · intro env m s e lat lon uw svc ws sc ec hps hpe hs
    rw [predictRange_forceFresh env m s e lat lon uw svc ws sc ec hps hpe] at hs ⊢
    obtain ⟨-, -, hcases⟩ := predictRangeFresh_spec env m s e
      (pyOrFloat lat defaultLat) (pyOrFloat lon defaultLon) uw true ec svc ws
    rcases hcases with ⟨-, err, -, hres, -⟩ | ⟨recs, -, hres, hsvc⟩
    · rw [hres] at hs
      simp [errorResult] at hs
    · rw [hres, hsvc]
      refine ⟨aac_coords _ _ _ _ _ _ _ _ _ _ _, aac_mark _ _ _ _ _ _ _ _ _ _ _, ?_⟩
      rw [aac_store _ _ _ _ _ _ _ _ _ _ _]
      rfl
  · intro d
    exact ⟨by simp [pyOrFloat], rfl⟩
  · intro x d hx
    simp [pyOrFloat, hx]

/-- C10 witness at a concrete mixed invocation: latitude `0.0` together
with the nonzero longitude `-114.0719` — the latitude is replaced by the
default, the longitude kept. -/
theorem C10_zero_coords_witness :
    (predictRange envNight mTest "2025-06-10" "2025-06-10" (some 0)
        (some (-114.0719)) false true ⟨[]⟩ wsA).result.metadata.coordinates
      = some (defaultLat, -114.0719)
    ∧ (predictRange envNight mTest "2025-06-10" "2025-06-10" (some 0)
        (some (-114.0719)) false true ⟨[]⟩ wsA).result.cachedMark
      = some ⟨isoFormat envNight.now,
          ⟨"2025-06-10", "2025-06-10", defaultLat, -114.0719, false⟩⟩
    ∧ (alookup ⟨"2025-06-10", "2025-06-10", defaultLat, -114.0719, false⟩
        (predictRange envNight mTest "2025-06-10" "2025-06-10" (some 0)
          (some (-114.0719)) false true ⟨[]⟩ wsA).svc.resultCache).isSome = true
    ∧ predictRange envNight mTest "2025-06-10" "2025-06-10" (some 0)
        (some (-114.0719)) false true ⟨[]⟩ wsA
      = predictRange envNight mTest "2025-06-10" "2025-06-10" none
        (some (-114.0719)) false true ⟨[]⟩ wsA := by
  have hz : pyOrFloat (some 0) defaultLat = defaultLat :=
    (C10_zero_coords.2.2.2.1 defaultLat).1
  have hnz : pyOrFloat (some (-114.0719)) defaultLon = -114.0719 :=
    C10_zero_coords.2.2.2.2 (-114.0719) defaultLon (by with_unfolding_all decide)
  obtain ⟨h1, h2, h3⟩ := C10_zero_coords.2.2.1 envNight mTest "2025-06-10"
    "2025-06-10" (some 0) (some (-114.0719)) false ⟨[]⟩ wsA ⟨2025, 6, 10⟩
    ⟨2025, 6, 10⟩ (by with_unfolding_all rfl) (by with_unfolding_all rfl)
    (by with_unfolding_all rfl)
  rw [hz, hnz] at h1 h2 h3
  exact ⟨h1, h2, h3, C10_zero_coords.1 envNight mTest "2025-06-10" "2025-06-10"
    (some (-114.0719)) false true ⟨[]⟩ wsA⟩

lemma checkRateLimit_noroll (todayStr nowIso : String) (log : CallLog)
    (htoday : log.today = todayStr) (hq : maxCallsPerDay ≤ log.callsToday) :
    checkRateLimit todayStr nowIso log = (log, false) := by
  simp only [checkRateLimit]
  rw [if_neg (by simp [htoday])]
  simp [Nat.not_lt.2 hq]

lemma checkRateLimitS_noroll (todayStr nowIso : String) (s : WSState)
    (htoday : s.memLog.today = todayStr) (hq : maxCallsPerDay ≤ s.memLog.callsToday) :
    checkRateLimitS todayStr nowIso s = (s, false) := by
  simp only [checkRateLimitS, checkRateLimit_noroll todayStr nowIso s.memLog htoday hq]

lemma getWeatherForecast_quota_nocache (env : Env) (lat lon : ℚ) (s e : String)
    (sc ec : Civil) (ff : Bool) (ws : WSState)
    (hps : parseDateYMD s = some sc) (hpe : parseDateYMD e = some ec)
    (htoday : ws.memLog.today = formatDate (dtDate env.now))
    (hq : maxCallsPerDay ≤ ws.memLog.callsToday) (hnc : ws.cache = []) :
    getWeatherForecast env lat lon s e ff ws = ⟨none, ws, 0⟩ := by
  simp only [getWeatherForecast, hps, hpe]
  have hfresh : ∀ es : String, getCachedWeather env.nowSec lat lon s es ws.cache = none := by
    intro es
    simp [getCachedWeather, hnc, alookup]
  have hck := checkRateLimitS_noroll (formatDate (dtDate env.now)) (isoFormat env.now)
    ws htoday hq
  cases ff
  · rw [if_neg (by simp), hfresh]
    rw [hck]
    dsimp only
    rw [if_neg (by simp)]
    simp [hnc, alookup]
  · rw [if_pos rfl]
    rw [hck]
    dsimp only
    rw [if_neg (by simp)]
    simp [hnc, alookup]

/-- C2: with the daily counter at the quota. Part one: a weather-requiring
`predict_range` call with empty caches performs no HTTP request and
leaves the weather state untouched, and a successful response carries the
degraded-quality warning with `weather_data_available = false`. Part two:
at the `get_weather_forecast` level, a stale (expired) cache entry for
the key is served as-is instead of calling the provider. -/
theorem C2_quota_exhausted :
    (∀ (env : Env) (m : SolarModel) (s e : String) (lat lon : Option ℚ) (ff : Bool)
        (svc : SolarState) (ws : WSState) (sc ec : Civil),
      parseDateYMD s = some sc → parseDateYMD e = some ec →
      ws.memLog.today = formatDate (dtDate env.now) →
      maxCallsPerDay ≤ ws.memLog.callsToday →
      ws.cache = [] → svc.resultCache = [] →
      (predictRange env m s e lat lon true ff svc ws).httpCalls = 0
      ∧ (predictRange env m s e lat lon true ff svc ws).ws = ws
      ∧ ((predictRange env m s e lat lon true ff svc ws).result.success = true →
          (predictRange env m s e lat lon true ff svc ws).result.warning = some warnMsg
          ∧ ∃ ex, (predictRange env m s e lat lon true ff svc ws).result.summary.extra
                = some ex
              ∧ ex.weather_quality.weather_data_available = false))
    ∧ (∀ (env : Env) (lat lon : ℚ) (s e : String) (sc ec : Civil) (T : ℚ)
        (file : WeatherCacheFile) (mlog flog : CallLog) (ff : Bool),
      parseDateYMD s = some sc → parseDateYMD e = some ec →
      civilMidnight ec ≤ env.now + 48 * usPerHour →
      mlog.today = formatDate (dtDate env.now) →
      maxCallsPerDay ≤ mlog.callsToday →
      ¬(env.nowSec - T ≤ 600) →
      getWeatherForecast env lat lon s e ff ⟨mlog, flog, [(⟨lat, lon, s, e⟩, (T, file))]⟩
        = ⟨some file.data, ⟨mlog, flog, [(⟨lat, lon, s, e⟩, (T, file))]⟩, 0⟩) := by
  constructor
  · intro env m s e lat lon ff svc ws sc ec hps hpe htoday hq hwc hrc
    have hcr : getCachedResult env.nowSec
        ⟨s, e, pyOrFloat lat defaultLat, pyOrFloat lon defaultLon, true⟩ svc = none := by
      simp [getCachedResult, hrc, alookup]
    have hwf : weatherFetchOf env (pyOrFloat lat defaultLat) (pyOrFloat lon defaultLon)
        s e true ff ws = ⟨none, ws, 0⟩ := by
      simp only [weatherFetchOf, if_pos]
      exact getWeatherForecast_quota_nocache env _ _ s e sc ec ff ws hps hpe htoday hq hwc
    obtain ⟨hws, hcalls, hcases⟩ := predictRangeFresh_spec env m s e
      (pyOrFloat lat defaultLat) (pyOrFloat lon defaultLon) true ff ec svc ws
    have hdispatch : predictRange env m s e lat lon true ff svc ws
        = predictRangeFresh env m s e (pyOrFloat lat defaultLat)
            (pyOrFloat lon defaultLon) true ff ec svc ws := by
      simp only [predictRange, hps, hpe, hcr, ite_self]
    rw [hdispatch]
    refine ⟨by rw [hcalls, hwf], by rw [hws, hwf], ?_⟩
    intro hs
    rcases hcases with ⟨-, err, -, hres, -⟩ | ⟨recs, hrecs, hres, -⟩
    · rw [hres] at hs
      simp [errorResult] at hs
    · have hnone : ∀ r ∈ recs, r.weather = none := by
        rcases hrecs with ⟨-, rfl⟩ | ⟨-, kw, miss, -, rfl⟩
        · intro r hr
          unfold loopOutOf at hr
          rw [hwf] at hr
          obtain ⟨k, -, -, -, -, -, rfl⟩ := (predictLoop_mem_iff m none
            (nextWholeHour env.now) (civilToDay ec) env.now 48 0 r).1 hr
          exact loopStep_no_weather m env.now _
        · intro r hr
          simp at hr
          subst hr
          rfl
      rw [hres]
      exact aac_noweather env m s e _ _ _ recs _ svc hnone
  · intro env lat lon s e sc ec T file mlog flog ff hps hpe hle htoday hq hstale
    have hclamp : ¬(civilMidnight ec > env.now + 48 * usPerHour) := not_lt.2 hle
    have hck := checkRateLimitS_noroll (formatDate (dtDate env.now)) (isoFormat env.now)
      ⟨mlog, flog, [(⟨lat, lon, s, e⟩, (T, file))]⟩ htoday hq
    have hval : isCacheValid env.nowSec (some T) 10 = false := by
      have hx : ¬(env.nowSec - T ≤ 10 * 60) := fun hc => hstale (by linarith)
      simpa [isCacheValid] using hx
    have hfresh : getCachedWeather env.nowSec lat lon s e
        [(⟨lat, lon, s, e⟩, (T, file))] = none := by
      simp [getCachedWeather, alookup_cons_self, hval]
    simp only [getWeatherForecast, hps, hpe]
    rw [if_neg hclamp]
    cases ff
    · rw [if_neg (show ((false : Bool) = true) → False by simp), hfresh, hck]
      dsimp only
      rw [if_neg (show ((false : Bool) = true) → False by simp)]
      rw [alookup_cons_self]
    · rw [if_pos (Eq.refl true), hck]
      dsimp only
      rw [if_neg (show ((false : Bool) = true) → False by simp)]
      rw [alookup_cons_self]

/-- C2 witness: concrete quota-exhausted runs for both parts. -/
theorem C2_quota_exhausted_witness :
    ((predictRange envNight mTest "2025-06-10" "2025-06-10" none none true false
        ⟨[]⟩ wsQ).httpCalls = 0
      ∧ (predictRange envNight mTest "2025-06-10" "2025-06-10" none none true false
        ⟨[]⟩ wsQ).ws = wsQ
      ∧ ((predictRange envNight mTest "2025-06-10" "2025-06-10" none none true false
          ⟨[]⟩ wsQ).result.success = true →
        (predictRange envNight mTest "2025-06-10" "2025-06-10" none none true false
          ⟨[]⟩ wsQ).result.warning = some warnMsg
        ∧ ∃ ex, (predictRange envNight mTest "2025-06-10" "2025-06-10" none none true false
              ⟨[]⟩ wsQ).result.summary.extra = some ex
            ∧ ex.weather_quality.weather_data_available = false))
    ∧ getWeatherForecast envNight 1 1 "2025-06-10" "2025-06-10" false
        ⟨logQ, logQ, [(⟨1, 1, "2025-06-10", "2025-06-10"⟩, (0, ⟨[], "c", 1, 1, "d"⟩))]⟩
      = ⟨some ([] : WeatherForecast),
         ⟨logQ, logQ, [(⟨1, 1, "2025-06-10", "2025-06-10"⟩, (0, ⟨[], "c", 1, 1, "d"⟩))]⟩, 0⟩ :=
  ⟨C2_quota_exhausted.1 envNight mTest "2025-06-10" "2025-06-10" none none false
      ⟨[]⟩ wsQ ⟨2025, 6, 10⟩ ⟨2025, 6, 10⟩ (by with_unfolding_all rfl)
      (by with_unfolding_all rfl) (by with_unfolding_all rfl)
      (by with_unfolding_all decide) rfl rfl,
   C2_quota_exhausted.2 envNight 1 1 "2025-06-10" "2025-06-10" ⟨2025, 6, 10⟩
      ⟨2025, 6, 10⟩ 0 ⟨[], "c", 1, 1, "d"⟩ logQ logQ false
      (by with_unfolding_all rfl) (by with_unfolding_all rfl)
      (by with_unfolding_all decide) (by with_unfolding_all rfl)
      (by with_unfolding_all decide) (by with_unfolding_all decide)⟩

end EcoSphere
